import Mathlib

/-!
Shallow embedding of PyRate's ROI_PAC header conversion module
(`pyrate/roipac.py`) and of the geotiff conversion driver step in
`pyrate/conv2tif.py`.

Python floats are modelled as exact rationals (the header values are decimal
text and the verified claims are about the formulas computed, not about
floating-point rounding).  The rationals are kept as unnormalized
numerator/denominator pairs (`PyNum`) so that every operation is a plain
integer computation; `PyNum.toRat` maps them into `ℚ` for specification
statements.  Python dicts are insertion-ordered association lists with
replace-in-place update, Python exceptions an explicit error type carried in
`Except`, and the file system a partial map from paths to file contents.
Error message formatting that interpolates numeric values is elided (the
message text is kept up to the interpolated number).
-/

/-- Python exception outcomes raised by the embedded code. -/
inductive PyErr where
  | roipac (msg : String)
  | ioError (msg : String)
  | valueError
  | typeError
  | indexError
  | keyError (k : String)
  | preprocessError (msg : String)
deriving DecidableEq, Repr

/-- A `datetime.date`: proleptic Gregorian calendar date. -/
structure PyDate where
  y : Int
  m : Nat
  d : Nat
deriving DecidableEq, Repr

/-- An exact rational kept as an unnormalized fraction with positive denominator;
this models the numeric value a Python float carries (the header values are
short decimal literals, exactly representable). -/
structure PyNum where
  num : Int
  den : Int
  dpos : 0 < den

instance : DecidableEq PyNum := fun a b =>
  decidable_of_iff (a.num = b.num ∧ a.den = b.den) (by
    constructor
    · rintro ⟨h1, h2⟩
      cases a; cases b
      dsimp at h1 h2
      subst h1; subst h2; rfl
    · intro h; cases h; exact ⟨rfl, rfl⟩)

/-- Build a `PyNum` from a numerator and a (positive) denominator. -/
def pnum (n d : Int) : PyNum := if h : 0 < d then ⟨n, d, h⟩ else ⟨n, 1, Int.zero_lt_one⟩

def PyNum.ofInt (z : Int) : PyNum := ⟨z, 1, Int.zero_lt_one⟩

def PyNum.add (a b : PyNum) : PyNum :=
  ⟨a.num * b.den + b.num * a.den, a.den * b.den, mul_pos a.dpos b.dpos⟩

def PyNum.mul (a b : PyNum) : PyNum :=
  ⟨a.num * b.num, a.den * b.den, mul_pos a.dpos b.dpos⟩

def PyNum.neg (a : PyNum) : PyNum := ⟨-a.num, a.den, a.dpos⟩

def PyNum.abs (a : PyNum) : PyNum := ⟨|a.num|, a.den, a.dpos⟩

def PyNum.divPow10 (a : PyNum) (n : Nat) : PyNum :=
  ⟨a.num, a.den * 10 ^ n, mul_pos a.dpos (pow_pos (by norm_num) n)⟩

def PyNum.mulPow10 (a : PyNum) (n : Nat) : PyNum := ⟨a.num * 10 ^ n, a.den, a.dpos⟩

/-- Value equality of two fractions (Python `==` on the carried numbers). -/
def PyNum.eqv (a b : PyNum) : Bool := a.num * b.den == b.num * a.den

/-- Value comparison `a < b` of two fractions. -/
def PyNum.lt (a b : PyNum) : Bool := decide (a.num * b.den < b.num * a.den)

/-- `days / 365.25` as an exact fraction. -/
def PyNum.div365 (days : Int) : PyNum := ⟨days * 100, 36525, by norm_num⟩

/-- The rational value carried by a `PyNum`. -/
def PyNum.toRat (a : PyNum) : ℚ := (a.num : ℚ) / (a.den : ℚ)

/-- Values stored in the parsed header dict (Python int/float/str/date/tuple-of-dates/bool). -/
inductive HVal where
  | int (z : Int)
  | float (q : PyNum)
  | str (s : String)
  | date (d : PyDate)
  | dates (ds : List PyDate)
  | bool (b : Bool)
deriving DecidableEq

deriving instance DecidableEq for Except

/-- Headers dict: insertion-ordered association list, keys unique by construction. -/
abbrev Headers := List (String × HVal)

/-- Python dict assignment `m[k] = v`: replace in place if the key exists, else append. -/
def dictInsert {α : Type} : List (String × α) → String → α → List (String × α)
  | [], k, v => [(k, v)]
  | p :: ps, k, v => if p.1 = k then (k, v) :: ps else p :: dictInsert ps k v

/-- Python dict read `m[k]`: raises `KeyError` when absent. -/
def hget (H : Headers) (k : String) : Except PyErr HVal :=
  match H.lookup k with
  | some v => .ok v
  | none => .error (.keyError k)

/-- Split a character list at every occurrence of `sep` (Python `str.split(sep)`). -/
def splitOnChar (sep : Char) : List Char → List (List Char)
  | [] => [[]]
  | c :: cs =>
    let r := splitOnChar sep cs
    if c = sep then [] :: r
    else
      match r with
      | [] => [[c]]
      | l :: ls => (c :: l) :: ls

/-- Python `str.split()` with no argument: split on whitespace runs, dropping empties. -/
def wsTokens : List Char → List (List Char)
  | [] => []
  | c :: cs =>
    if c.isWhitespace then wsTokens cs
    else
      match cs, wsTokens cs with
      | [], _ => [[c]]
      | c2 :: _, r =>
        if c2.isWhitespace then [c] :: r
        else
          match r with
          | [] => [[c]]
          | t :: ts => (c :: t) :: ts

/-- Python slice `cs[a:b]` on a list of characters. -/
def sliceList (cs : List Char) (a b : Nat) : List Char := (cs.drop a).take (b - a)

def digitVal (c : Char) : Nat := c.toNat - 48

def digitsToNatAux : Nat → List Char → Except PyErr Nat
  | acc, [] => .ok acc
  | acc, c :: cs =>
    if c.isDigit then digitsToNatAux (acc * 10 + digitVal c) cs else .error .valueError

/-- Digit run to a natural number; `ValueError` on empty input or a non-digit. -/
def digitsToNat : List Char → Except PyErr Nat
  | [] => .error .valueError
  | c :: cs => digitsToNatAux 0 (c :: cs)

/-- Python `int(s)` on the token strings found in headers. -/
def pyInt (s : String) : Except PyErr Int :=
  match s.data with
  | [] => .error .valueError
  | c :: cs =>
    if c = '-' then (digitsToNat cs).map (fun n => -(n : Int))
    else if c = '+' then (digitsToNat cs).map (fun n => (n : Int))
    else (digitsToNat (c :: cs)).map (fun n => (n : Int))

/-- Value of a digit run (assumed all digits). -/
def digitsVal (cs : List Char) : Nat := cs.foldl (fun a c => a * 10 + digitVal c) 0

/-- Optional exponent suffix of a Python float literal. -/
def parseExp (v : PyNum) : List Char → Except PyErr PyNum
  | [] => .ok v
  | c :: cs =>
    if c = 'e' ∨ c = 'E' then
      match cs with
      | '-' :: ds => (digitsToNat ds).map (fun n => v.divPow10 n)
      | '+' :: ds => (digitsToNat ds).map (fun n => v.mulPow10 n)
      | ds => (digitsToNat ds).map (fun n => v.mulPow10 n)
    else .error .valueError

def pyFloatBody (cs : List Char) : Except PyErr PyNum :=
  let ip := cs.takeWhile Char.isDigit
  let rest := cs.dropWhile Char.isDigit
  match rest with
  | '.' :: cs2 =>
    let fp := cs2.takeWhile Char.isDigit
    let rest2 := cs2.dropWhile Char.isDigit
    if ip.isEmpty && fp.isEmpty then .error .valueError
    else
      parseExp ((PyNum.ofInt (digitsVal ip)).add ((PyNum.ofInt (digitsVal fp)).divPow10 fp.length)) rest2
  | _ =>
    if ip.isEmpty then .error .valueError
    else parseExp (PyNum.ofInt (digitsVal ip)) rest

/-- Python `float(s)` on decimal header tokens (exact rational value). -/
def pyFloat (s : String) : Except PyErr PyNum :=
  match s.data with
  | '-' :: cs => (pyFloatBody cs).map (fun q => q.neg)
  | '+' :: cs => pyFloatBody cs
  | cs => pyFloatBody cs

def isLeap (y : Int) : Bool := (y % 4 == 0 && !(y % 100 == 0)) || y % 400 == 0

def daysInMonth (y m : Int) : Int :=
  if m = 2 then (if isLeap y then 29 else 28)
  else if m = 4 ∨ m = 6 ∨ m = 9 ∨ m = 11 then 30
  else 31

/-- Validity condition enforced by the `datetime.date` constructor. -/
def isValidYMD (y m d : Int) : Bool :=
  1 ≤ y && y ≤ 9999 && 1 ≤ m && m ≤ 12 && 1 ≤ d && d ≤ daysInMonth y m

/-- `datetime.date(y, m, d)`: raises `ValueError` on an invalid date. -/
def mkPyDate (y m d : Int) : Except PyErr PyDate :=
  if isValidYMD y m d then .ok ⟨y, m.toNat, d.toNat⟩ else .error .valueError

/-- The century pivot of `to_date`: two-digit years 50..99 map to the 1900s, the rest get 2000 added. -/
def yearPivot (y : Int) : Int := if y ≤ 99 ∧ 50 ≤ y then y + 1900 else y + 2000

/-- Inner `to_date(ds)` of `parse_date`: slices `ds[0:2]`, `ds[2:4]`, `ds[4:6]`. -/
def to_date (s : String) : Except PyErr PyDate := do
  let y ← pyInt (String.mk (sliceList s.data 0 2))
  let m ← pyInt (String.mk (sliceList s.data 2 4))
  let d ← pyInt (String.mk (sliceList s.data 4 6))
  mkPyDate (yearPivot y) m d

def toDates : List (List Char) → Except PyErr (List PyDate)
  | [] => .ok []
  | p :: ps => do
    let d ← to_date (String.mk p)
    let r ← toDates ps
    .ok (d :: r)

/-- `parse_date`: a ranged `yymmdd-yymmdd` string becomes a tuple, otherwise a single date. -/
def parse_date (s : String) : Except PyErr HVal :=
  if s.data.contains '-' then (toDates (splitOnChar '-' s.data)).map .dates
  else (to_date s).map .date

/-- Days since 1970-01-01 of a Gregorian date (the ordinal used by `date` subtraction). -/
def daysFromCivil (dt : PyDate) : Int :=
  let y : Int := if dt.m ≤ 2 then dt.y - 1 else dt.y
  let era : Int := (if 0 ≤ y then y else y - 399) / 400
  let yoe : Int := y - era * 400
  let mp : Int := ((dt.m : Int) + 9) % 12
  let doy : Int := (153 * mp + 2) / 5 + (dt.d : Int) - 1
  let doe : Int := yoe * 365 + yoe / 4 - yoe / 100 + doy
  era * 146097 + doe - 719468

-- ROIPAC RSC header file constants (from roipac.py)
def WIDTH : String := "WIDTH"
def FILE_LENGTH : String := "FILE_LENGTH"
def XMIN : String := "XMIN"
def XMAX : String := "XMAX"
def YMIN : String := "YMIN"
def YMAX : String := "YMAX"
def X_FIRST : String := "X_FIRST"
def X_STEP : String := "X_STEP"
def X_UNIT : String := "X_UNIT"
def Y_FIRST : String := "Y_FIRST"
def Y_STEP : String := "Y_STEP"
def Y_UNIT : String := "Y_UNIT"
def TIME_SPAN_YEAR : String := "TIME_SPAN_YEAR"
def RLOOKS : String := "RLOOKS"
def ALOOKS : String := "ALOOKS"
def COR_THRESHOLD : String := "COR_THRESHOLD"
def ORBIT_NUMBER : String := "ORBIT_NUMBER"
def VELOCITY : String := "VELOCITY"
def HEIGHT : String := "HEIGHT"
def EARTH_RADIUS : String := "EARTH_RADIUS"
def WAVELENGTH : String := "WAVELENGTH"
def DATE : String := "DATE"
def DATE12 : String := "DATE12"
def HEADING_DEG : String := "HEADING_DEG"
def RGE_REF1 : String := "RGE_REF1"
def LOOK_REF1 : String := "LOOK_REF1"
def LAT_REF1 : String := "LAT_REF1"
def LON_REF1 : String := "LON_REF1"
def RGE_REF2 : String := "RGE_REF2"
def LOOK_REF2 : String := "LOOK_REF2"
def LAT_REF2 : String := "LAT_REF2"
def LON_REF2 : String := "LON_REF2"
def RGE_REF3 : String := "RGE_REF3"
def LOOK_REF3 : String := "LOOK_REF3"
def LAT_REF3 : String := "LAT_REF3"
def LON_REF3 : String := "LON_REF3"
def RGE_REF4 : String := "RGE_REF4"
def LOOK_REF4 : String := "LOOK_REF4"
def LAT_REF4 : String := "LAT_REF4"
def LON_REF4 : String := "LON_REF4"
def Z_OFFSET : String := "Z_OFFSET"
def Z_SCALE : String := "Z_SCALE"
def PROJECTION : String := "PROJECTION"
def DATUM : String := "DATUM"
def MASTER : String := "MASTER"
def SLAVE : String := "SLAVE"
def X_LAST : String := "X_LAST"
def Y_LAST : String := "Y_LAST"

def INT_HEADERS : List String :=
  [WIDTH, FILE_LENGTH, XMIN, XMAX, YMIN, YMAX, RLOOKS, ALOOKS, Z_OFFSET, Z_SCALE]
def STR_HEADERS : List String := [X_UNIT, Y_UNIT, ORBIT_NUMBER, DATUM, PROJECTION]
def FLOAT_HEADERS : List String :=
  [X_FIRST, X_STEP, Y_FIRST, Y_STEP, TIME_SPAN_YEAR, COR_THRESHOLD,
   VELOCITY, HEIGHT, EARTH_RADIUS, WAVELENGTH, HEADING_DEG,
   RGE_REF1, RGE_REF2, RGE_REF3, RGE_REF4,
   LOOK_REF1, LOOK_REF2, LOOK_REF3, LOOK_REF4,
   LAT_REF1, LAT_REF2, LAT_REF3, LAT_REF4,
   LON_REF1, LON_REF2, LON_REF3, LON_REF4]
def DATE_HEADERS : List String := [DATE, DATE12]

def ROI_PAC_HEADER_FILE_EXT : String := "rsc"
def PIXELTYPE_INT : String := "signedint"
def PIXELTYPE_FLOAT : String := "float"
def PIXEL_TYPE : String := "pixeltype"
def BYTE_ORDER : String := "byteorder"
def Y_CORNER : String := "yllcorner"
def NBANDS : String := "nbands"
def NODATA : String := "nodata"
def IS_DEM : String := "is_dem"
def NBITS : String := "nbits"

def malformedMsg (path : String) : String :=
  "Unable to parse content of " ++ path ++ ". Is it a ROIPAC header file?"
def missingDatesMsg (path : String) : String :=
  "Filename does not include master/slave dates: " ++ path
def namingMsg (path : String) : String :=
  "Unrecognised file naming pattern for " ++ path
def unrecognisedMsg (k v : String) : String :=
  "Unrecognised header element " ++ k ++ ": " ++ v ++ " "
def yllMsg : String := "Invalid Y latitude for yllcorner"

/-- Per-key type coercion of the raw token (the body of the `for k in headers.keys()` loop). -/
def coerceVal (k v : String) : Except PyErr HVal :=
  if INT_HEADERS.contains k then (pyInt v).map .int
  else if STR_HEADERS.contains k then .ok (.str v)
  else if FLOAT_HEADERS.contains k then (pyFloat v).map .float
  else if DATE_HEADERS.contains k then parse_date v
  else .error (.roipac (unrecognisedMsg k v))

/-- Coerce every entry of the raw dict, preserving key order. -/
def coerceHeaders : List (String × String) → Except PyErr Headers
  | [] => .ok []
  | (k, v) :: ps => do
    let hv ← coerceVal k v
    let rest ← coerceHeaders ps
    .ok ((k, hv) :: rest)

/-- The non-empty lines of the header text (`e for e in text.split("\n") if e != ""`). -/
def nonEmptyLines (text : String) : List (List Char) :=
  (splitOnChar '\n' text.data).filter (fun l => !l.isEmpty)

/-- Each line must split into exactly two tokens, as `dict(lines)` demands. -/
def linesToPairs (path : String) : List (List Char) → Except PyErr (List (String × String))
  | [] => .ok []
  | l :: ls =>
    match wsTokens l with
    | [k, v] => (linesToPairs path ls).map (fun r => (String.mk k, String.mk v) :: r)
    | _ => .error (.roipac (malformedMsg path))

/-- `dict(lines)`: raw key/token dict of the header text; duplicate keys keep the last value. -/
def rawHeaders (text path : String) : Except PyErr (List (String × String)) :=
  (linesToPairs path (nonEmptyLines text)).map
    (fun ps => ps.foldl (fun m kv => dictInsert m kv.1 kv.2) [])

/-- Does `cs` start with six digits, a dash, and six more digits (the regex at one position)? -/
def matches6d6 (cs : List Char) : Bool :=
  match cs with
  | a :: b :: c :: d :: e :: f :: g :: h :: i :: j :: k :: l :: m :: _ =>
    a.isDigit && b.isDigit && c.isDigit && d.isDigit && e.isDigit && f.isDigit &&
    g == '-' &&
    h.isDigit && i.isDigit && j.isDigit && k.isDigit && l.isDigit && m.isDigit
  | _ => false

def reSearchAux : List Char → Option String
  | [] => none
  | c :: cs =>
    if matches6d6 (c :: cs) then some (String.mk ((c :: cs).take 13)) else reSearchAux cs

/-- Leftmost match of `re.compile(r'\d{6}-\d{6}').search(path)`. -/
def reSearchDates (s : String) : Option String := reSearchAux s.data

/-- `date12[0]`: first element of a tuple; a plain date is not subscriptable. -/
def pyIndex0 : HVal → Except PyErr HVal
  | .dates (d :: _) => .ok (.date d)
  | .dates [] => .error .indexError
  | _ => .error .typeError

/-- `x[-1]`: last element of a tuple; a plain date is not subscriptable. -/
def pyIndexLast : HVal → Except PyErr HVal
  | .dates l =>
    match l.getLast? with
    | some d => .ok (.date d)
    | none => .error .indexError
  | _ => .error .typeError

/-- `(slave - master).days`: date subtraction; anything but two dates is a type error. -/
def pySubDates : HVal → HVal → Except PyErr Int
  | .date a, .date b => .ok (daysFromCivil a - daysFromCivil b)
  | _, _ => .error .typeError

/-- The block that fills `DATE`/`DATE12` from the file name when at least one is missing. -/
def fillDatesFromPath (H : Headers) (path : String) : Except PyErr Headers :=
  if (H.lookup DATE).isNone || (H.lookup DATE12).isNone then
    match reSearchDates path with
    | some s =>
      if s.length = 13 then do
        let d12 ← parse_date s
        let d0 ← pyIndex0 d12
        .ok (dictInsert (dictInsert H DATE d0) DATE12 d12)
      else .ok H
    | none => .error (.roipac (missingDatesMsg path))
  else .ok H

/-- Adds `MASTER`/`SLAVE` aliases and recomputes `TIME_SPAN_YEAR` as `(slave-master).days/365.25`. -/
def setMasterSlave (H : Headers) : Except PyErr Headers := do
  let dv ← hget H DATE
  let d12 ← hget (dictInsert H MASTER dv) DATE12
  let dl ← pyIndexLast d12
  let sv ← hget (dictInsert (dictInsert H MASTER dv) SLAVE dl) SLAVE
  let mv ← hget (dictInsert (dictInsert H MASTER dv) SLAVE dl) MASTER
  let days ← pySubDates sv mv
  .ok (dictInsert (dictInsert (dictInsert H MASTER dv) SLAVE dl)
    TIME_SPAN_YEAR (.float (PyNum.div365 days)))

/-- The date-processing section of `parse_header`, skipped for DEM headers. -/
def deriveDates (H : Headers) (path : String) : Except PyErr Headers :=
  if (H.lookup DATUM).isSome then .ok H
  else do
    let h1 ← fillDatesFromPath H path
    setMasterSlave h1

/-- Numeric view of a header value (Python arithmetic accepts int, float and bool). -/
def toNum : HVal → Option PyNum
  | .int z => some (PyNum.ofInt z)
  | .float q => some q
  | .bool b => some (PyNum.ofInt (if b then 1 else 0))
  | _ => none

/-- `first + step * size` with Python numeric coercion. -/
def pyAddMul (a s n : HVal) : Except PyErr PyNum :=
  match toNum a, toNum s, toNum n with
  | some x, some y, some z => .ok (x.add (y.mul z))
  | _, _, _ => .error .typeError

/-- Adds the custom `X_LAST`/`Y_LAST` fields when absent. -/
def synthLast (H : Headers) : Except PyErr Headers := do
  let h1 ← (
    if (H.lookup X_LAST).isNone then do
      let a ← hget H X_FIRST
      let s ← hget H X_STEP
      let n ← hget H WIDTH
      let q ← pyAddMul a s n
      .ok (dictInsert H X_LAST (.float q))
    else .ok H)
  if (h1.lookup Y_LAST).isNone then do
    let a ← hget h1 Y_FIRST
    let s ← hget h1 Y_STEP
    let n ← hget h1 FILE_LENGTH
    let q ← pyAddMul a s n
    .ok (dictInsert h1 Y_LAST (.float q))
  else .ok h1

/-- `parse_header(hdr_file)`, split into the file text and the file path it was read from. -/
def parse_header (text path : String) : Except PyErr Headers := do
  let r ← rawHeaders text path
  let h1 ← coerceHeaders r
  let h2 ← deriveDates h1 path
  synthLast h2

/-- All indices at which `pat` occurs in `s`. -/
def subIndices (s pat : List Char) : List Nat :=
  (List.range (s.length + 1)).filter (fun i => pat.isPrefixOf (s.drop i))

/-- Python `str.index`-style first occurrence (as an option instead of ValueError). -/
def strFind (s pat : String) : Option Nat := (subIndices s.data pat.data).head?

/-- Python `str.rfind`: index of the last occurrence, `-1` when absent. -/
def strRfind (s pat : String) : Int :=
  match (subIndices s.data pat.data).getLast? with
  | some i => (i : Int)
  | none => -1

def strTake (s : String) (n : Nat) : String := String.mk (s.data.take n)

/-- Default destination file derivation of `translate_header`. -/
def resolveDest (isDem : Bool) (hdr : String) (dest : Option String) : Except PyErr String :=
  match dest with
  | some d => .ok d
  | none =>
    if isDem then
      match strFind hdr "dem.rsc" with
      | some i => .ok (strTake hdr i ++ "hdr")
      | none => .error (.roipac (namingMsg hdr))
    else
      if max (strRfind hdr "unw.rsc") (strRfind hdr "tif.rsc") > 0 then
        .ok (strTake hdr (max (strRfind hdr "unw.rsc") (strRfind hdr "tif.rsc")).toNat ++ "hdr")
      else .error (.roipac (namingMsg hdr))

/-- `H[Y_FIRST] + (H[FILE_LENGTH] * H[Y_STEP])`, the lower-left corner latitude. -/
def yllcornerOf (H : Headers) : Except PyErr PyNum := do
  let yf ← hget H Y_FIRST
  let fl ← hget H FILE_LENGTH
  let ys ← hget H Y_STEP
  match toNum yf, toNum fl, toNum ys with
  | some a, some n, some s => .ok (a.add (n.mul s))
  | _, _, _ => .error .typeError

/-- Python truthiness of a header value. -/
def pyTruthy : HVal → Bool
  | .int z => !(z == 0)
  | .float q => !(q.num == 0)
  | .str s => !(s == "")
  | .date _ => true
  | .dates l => !l.isEmpty
  | .bool b => b

/-- Python `abs` on a numeric header value. -/
def pyAbsV : HVal → Except PyErr HVal
  | .int z => .ok (.int |z|)
  | .float q => .ok (.float q.abs)
  | .bool b => .ok (.int (if b then 1 else 0))
  | _ => .error .typeError

/-- The cell size entries of the BIL header: one uniform `cellsize` when
`H[X_STEP] == abs(H[Y_STEP])`, separate `xdim`/`ydim` otherwise. -/
def cellEntries (xs ya : HVal) : Except PyErr (List (String × HVal)) :=
  match toNum xs, toNum ya with
  | some x, some y =>
    if x.eqv y then .ok [("cellsize", xs)]
    else .ok [("xdim", xs), ("ydim", ya)]
  | _, _ => .error .typeError

/-- `write_bil_header(dest, H)`: the ESRI BIL header emitted, modelled as the ordered
list of key/value entries written, paired with the destination path returned. -/
def write_bil_header (dest : String) (H : Headers) :
    Except PyErr (String × List (String × HVal)) := do
  let w ← hget H WIDTH
  let nr ← hget H FILE_LENGTH
  let xs ← hget H X_STEP
  let ys ← hget H Y_STEP
  let ya ← pyAbsV ys
  let cell ← cellEntries xs ya
  let xf ← hget H X_FIRST
  let yc ← hget H Y_CORNER
  let bo ← hget H BYTE_ORDER
  let demv ← hget H IS_DEM
  let demTail ← (
    if pyTruthy demv then .ok []
    else do
      let nod ← hget H NODATA
      let nb ← hget H NBANDS
      .ok [("nodata", nod), ("layout", HVal.str "bil"), ("nbands", nb)])
  let nb ← hget H NBITS
  let pt ← hget H PIXEL_TYPE
  .ok (dest,
    [("ncols", w), ("nrows", nr)] ++ cell ++
    [("xllcorner", xf), ("yllcorner", yc), ("byteorder", bo)] ++ demTail ++
    [("nbits", nb), ("pixeltype", pt)])

/-- The fields `translate_header` adds to the parsed header after the corner check:
`is_dem`, `yllcorner`, pixel type, bit width, band count (non-DEM only), byte
order and the no-data value. -/
def translatedFields (H0 : Headers) (yll : PyNum) : Headers :=
  dictInsert
    (dictInsert
      (if (H0.lookup DATUM).isSome then
        dictInsert
          (dictInsert
            (dictInsert (dictInsert H0 IS_DEM (.bool true)) Y_CORNER (.float yll))
            PIXEL_TYPE (.str PIXELTYPE_INT))
          NBITS (.int 16)
      else
        dictInsert
          (dictInsert
            (dictInsert
              (dictInsert (dictInsert H0 IS_DEM (.bool false)) Y_CORNER (.float yll))
              PIXEL_TYPE (.str PIXELTYPE_FLOAT))
            NBITS (.int 32))
          NBANDS (.int 2))
      BYTE_ORDER (.str "lsb"))
    NODATA (.int 0)

/-- `translate_header(hdr, dest)`: `isFile` stands for `os.path.isfile(hdr) or islink(hdr)`
and `text` for the content of the header file at path `hdr`. -/
def translate_header (isFile : Bool) (text hdr : String) (dest : Option String) :
    Except PyErr (String × List (String × HVal)) :=
  if isFile then do
    let H0 ← parse_header text hdr
    let d ← resolveDest ((H0.lookup DATUM).isSome) hdr dest
    let yll ← yllcornerOf (dictInsert H0 IS_DEM (.bool ((H0.lookup DATUM).isSome)))
    if (PyNum.ofInt 90).lt yll || yll.lt (PyNum.ofInt (-90)) then .error (.roipac yllMsg)
    else write_bil_header d (translatedFields H0 yll)
  else .error (.ioError (hdr ++ " not a valid header file"))

-- ---------------------------------------------------------------------------
-- conv2tif.py: the per-file geotiff conversion step
-- ---------------------------------------------------------------------------

def GAMMA : Int := 1
def ROIPAC : Int := 0

/-- The parameters of `_geotiff_multiprocessing` read from the config dict. -/
structure ConvParams where
  obs_dir : String
  coh_file_dir : Option String
  processor : Int
  no_data_value : Int

/-- A file system: partial map from paths to file contents. -/
abbrev FS := String → Option String

def strEndsWith (s suffixStr : String) : Bool := suffixStr.data.isSuffixOf s.data

def baseName (p : String) : String :=
  String.mk ((p.data.reverse.takeWhile (fun c => !(c == '/'))).reverse)

/-- Modelled from the spec: `shared.output_tiff_filename` is not under src/; per the
driver contract it derives the canonical GeoTIFF output path in the given output
directory from the input file name. -/
def output_tiff_filename (inputPath outDir : String) : String :=
  outDir ++ "/" ++ baseName inputPath ++ ".tif"

/-- Modelled from the spec: `roipac.roipac_header` (from `pyrate.core`, not under src/)
reads the `.rsc` header paired with the data file and parses it with the RSC parser. -/
def roipac_header (unw_path : String) (fs : FS) : Except PyErr Headers :=
  match fs (unw_path ++ "." ++ ROI_PAC_HEADER_FILE_EXT) with
  | some text => parse_header text (unw_path ++ "." ++ ROI_PAC_HEADER_FILE_EXT)
  | none => .error (.ioError (unw_path ++ "." ++ ROI_PAC_HEADER_FILE_EXT ++ " not found"))

/-- Modelled from the spec: `gamma.gamma_header` (not under src/) reads the GAMMA
dialect header paired with the data file; its field semantics are not needed by
the claims, so the raw text is carried as the header record. -/
def gamma_header (unw_path : String) (fs : FS) : Except PyErr Headers :=
  match fs (unw_path ++ ".par") with
  | some text => .ok [("GAMMA_HEADER_TEXT", .str text)]
  | none => .error (.ioError (unw_path ++ ".par not found"))

/-- Deterministic encoding of the canonical raster written for a header/payload pair. -/
def renderGeotiff (header : Headers) (payload : Option String) (nodata : Int) : String :=
  (header.foldl (fun acc kv => acc ++ kv.1 ++ ";") "GTIFF:") ++
  (payload.getD "") ++ ";" ++ toString nodata

/-- Modelled from the spec: `shared.write_fullres_geotiff` (not under src/) writes the
canonical raster derived from the header, payload and no-data value to `dest`. -/
def write_fullres_geotiff (fs : FS) (header : Headers) (unw_path dest : String) (nodata : Int) : FS :=
  fun p => if p = dest then some (renderGeotiff header (fs unw_path) nodata) else fs p

/-- Destination selection of `_geotiff_multiprocessing`: coherence files go to the
coherence directory when one is configured. -/
def conv_dest (unw_path : String) (params : ConvParams) : String :=
  if params.coh_file_dir.isSome && strEndsWith unw_path ".cc" then
    output_tiff_filename unw_path (params.coh_file_dir.getD "")
  else output_tiff_filename unw_path params.obs_dir

/-- The processor dispatch of `_geotiff_multiprocessing`: GAMMA (1) or ROI_PAC (0),
anything else is a `PreprocessError`. -/
def processor_header (processor : Int) (unw_path : String) (fs : FS) : Except PyErr Headers :=
  if processor = GAMMA then gamma_header unw_path fs
  else if processor = ROIPAC then roipac_header unw_path fs
  else .error (.preprocessError "Processor must be ROI_PAC (0) or GAMMA (1)")

/-- `_geotiff_multiprocessing(unw_path, params)` over an explicit file system state:
returns the updated file system and the reported result (`some dest` after a write,
`none` when the full-res geotiff already exists). -/
def geotiff_multiprocessing (unw_path : String) (params : ConvParams) (fs : FS) :
    Except PyErr (FS × Option String) :=
  if (fs (conv_dest unw_path params)).isNone then do
    let header ← processor_header params.processor unw_path fs
    .ok (write_fullres_geotiff fs header unw_path (conv_dest unw_path params)
      params.no_data_value, some (conv_dest unw_path params))
  else .ok (fs, none)

/-- The key/value pairs of the well-formed lines of a header text, in file order. -/
def linePairsOf (text : String) : List (String × String) :=
  (nonEmptyLines text).filterMap (fun l =>
    match wsTokens l with
    | [k, v] => some (String.mk k, String.mk v)
    | _ => none)

/-- The value attached to the last occurrence of key `k` in a pair list. -/
def lastValue {α : Type} (k : String) : List (String × α) → Option α
  | [] => none
  | q :: rest =>
    match lastValue k rest with
    | some v => some v
    | none => if q.1 = k then some q.2 else none

/-- The character of a decimal digit. -/
def digitChar (n : Nat) : Char := Char.ofNat (48 + n)

/-- Two-digit decimal rendering of a number below 100 (the `yy`, `mm`, `dd` pieces). -/
def dd2 (n : Nat) : String := String.mk [digitChar (n / 10), digitChar (n % 10)]

-- Concrete inputs used by the claim witnesses and counterexamples -----------

/-- A DEM header whose lower-left corner latitude computes to 91. -/
def textC1 : String :=
  "WIDTH 2\nFILE_LENGTH 2\nX_FIRST 150.0\nX_STEP 0.1\nY_FIRST 89.0\nY_STEP 1.0\nDATUM WGS84\n"

def headerC1 : Headers :=
  [(WIDTH, .int 2), (FILE_LENGTH, .int 2), (X_FIRST, .float (pnum 1500 10)),
   (X_STEP, .float (pnum 1 10)), (Y_FIRST, .float (pnum 890 10)),
   (Y_STEP, .float (pnum 10 10)), (DATUM, .str "WGS84"),
   (X_LAST, .float (pnum 15020 100)), (Y_LAST, .float (pnum 9100 100))]

def rawC1 : List (String × String) :=
  [("WIDTH", "2"), ("FILE_LENGTH", "2"), ("X_FIRST", "150.0"), ("X_STEP", "0.1"),
   ("Y_FIRST", "89.0"), ("Y_STEP", "1.0"), ("DATUM", "WGS84")]

def coercedC1 : Headers :=
  [(WIDTH, .int 2), (FILE_LENGTH, .int 2), (X_FIRST, .float (pnum 1500 10)),
   (X_STEP, .float (pnum 1 10)), (Y_FIRST, .float (pnum 890 10)),
   (Y_STEP, .float (pnum 10 10)), (DATUM, .str "WGS84")]

/-- An interferogram header carrying `DATE` but no `DATE12`. -/
def textC2 : String :=
  "WIDTH 2\nFILE_LENGTH 2\nX_FIRST 150.0\nX_STEP 0.1\nY_FIRST -33.0\nY_STEP -0.1\nDATE 100102\n"

def rawC2 : List (String × String) :=
  [("WIDTH", "2"), ("FILE_LENGTH", "2"), ("X_FIRST", "150.0"), ("X_STEP", "0.1"),
   ("Y_FIRST", "-33.0"), ("Y_STEP", "-0.1"), ("DATE", "100102")]

/-- An interferogram header with no date fields at all (dates come from the file name). -/
def textNoDates : String :=
  "WIDTH 2\nFILE_LENGTH 2\nX_FIRST 150.0\nX_STEP 0.1\nY_FIRST -33.0\nY_STEP -0.1\n"

def rawNoDates : List (String × String) :=
  [("WIDTH", "2"), ("FILE_LENGTH", "2"), ("X_FIRST", "150.0"), ("X_STEP", "0.1"),
   ("Y_FIRST", "-33.0"), ("Y_STEP", "-0.1")]

def coercedNoDates : Headers :=
  [(WIDTH, .int 2), (FILE_LENGTH, .int 2), (X_FIRST, .float (pnum 1500 10)),
   (X_STEP, .float (pnum 1 10)), (Y_FIRST, .float (pnum (-330) 10)),
   (Y_STEP, .float (pnum (-1) 10))]

/-- Parse of `textNoDates` under a path carrying `100102-100304`. -/
def headerDates1 : Headers :=
  [(WIDTH, .int 2), (FILE_LENGTH, .int 2), (X_FIRST, .float (pnum 1500 10)),
   (X_STEP, .float (pnum 1 10)), (Y_FIRST, .float (pnum (-330) 10)),
   (Y_STEP, .float (pnum (-1) 10)),
   (DATE, .date ⟨2010, 1, 2⟩), (DATE12, .dates [⟨2010, 1, 2⟩, ⟨2010, 3, 4⟩]),
   (MASTER, .date ⟨2010, 1, 2⟩), (SLAVE, .date ⟨2010, 3, 4⟩),
   (TIME_SPAN_YEAR, .float (pnum 6100 36525)),
   (X_LAST, .float (pnum 15020 100)), (Y_LAST, .float (pnum (-3320) 100))]

/-- Parse of `textNoDates` under a path carrying `950607-960708`. -/
def headerDates2 : Headers :=
  [(WIDTH, .int 2), (FILE_LENGTH, .int 2), (X_FIRST, .float (pnum 1500 10)),
   (X_STEP, .float (pnum 1 10)), (Y_FIRST, .float (pnum (-330) 10)),
   (Y_STEP, .float (pnum (-1) 10)),
   (DATE, .date ⟨1995, 6, 7⟩), (DATE12, .dates [⟨1995, 6, 7⟩, ⟨1996, 7, 8⟩]),
   (MASTER, .date ⟨1995, 6, 7⟩), (SLAVE, .date ⟨1996, 7, 8⟩),
   (TIME_SPAN_YEAR, .float (pnum 39700 36525)),
   (X_LAST, .float (pnum 15020 100)), (Y_LAST, .float (pnum (-3320) 100))]

/-- A DEM header that also carries an `X_LAST` line. -/
def textC3 : String :=
  "WIDTH 2\nFILE_LENGTH 2\nX_FIRST 150.0\nX_STEP 0.1\nY_FIRST -33.0\nY_STEP -0.1\nDATUM WGS84\nX_LAST 150.2\n"

def rawC3 : List (String × String) :=
  [("WIDTH", "2"), ("FILE_LENGTH", "2"), ("X_FIRST", "150.0"), ("X_STEP", "0.1"),
   ("Y_FIRST", "-33.0"), ("Y_STEP", "-0.1"), ("DATUM", "WGS84"), ("X_LAST", "150.2")]

/-- An interferogram header that carries a stale `TIME_SPAN_YEAR` value of 99.9. -/
def textC5 : String :=
  "WIDTH 2\nFILE_LENGTH 2\nX_FIRST 150.0\nX_STEP 0.1\nY_FIRST -33.0\nY_STEP -0.1\nTIME_SPAN_YEAR 99.9\n"

def headerC5 : Headers :=
  [(WIDTH, .int 2), (FILE_LENGTH, .int 2), (X_FIRST, .float (pnum 1500 10)),
   (X_STEP, .float (pnum 1 10)), (Y_FIRST, .float (pnum (-330) 10)),
   (Y_STEP, .float (pnum (-1) 10)),
   (TIME_SPAN_YEAR, .float (pnum 6100 36525)),
   (DATE, .date ⟨2010, 1, 2⟩), (DATE12, .dates [⟨2010, 1, 2⟩, ⟨2010, 3, 4⟩]),
   (MASTER, .date ⟨2010, 1, 2⟩), (SLAVE, .date ⟨2010, 3, 4⟩),
   (X_LAST, .float (pnum 15020 100)), (Y_LAST, .float (pnum (-3320) 100))]

/-- A DEM header text containing the key `WIDTH` twice, with different values. -/
def textC6 : String :=
  "WIDTH 2\nWIDTH 3\nFILE_LENGTH 2\nX_FIRST 150.0\nX_STEP 0.1\nY_FIRST -33.0\nY_STEP -0.1\nDATUM WGS84\n"

def headerC6 : Headers :=
  [(WIDTH, .int 3), (FILE_LENGTH, .int 2), (X_FIRST, .float (pnum 1500 10)),
   (X_STEP, .float (pnum 1 10)), (Y_FIRST, .float (pnum (-330) 10)),
   (Y_STEP, .float (pnum (-1) 10)), (DATUM, .str "WGS84"),
   (X_LAST, .float (pnum 15030 100)), (Y_LAST, .float (pnum (-3320) 100))]

/-- A header text with a malformed (three-token) line. -/
def textC6bad : String := "WIDTH 2 3\nFILE_LENGTH 2\n"

/-- An interferogram header whose x and y steps are both `-0.1`. -/
def textC7 : String :=
  "WIDTH 2\nFILE_LENGTH 2\nX_FIRST 150.0\nX_STEP -0.1\nY_FIRST -33.0\nY_STEP -0.1\n"

def contentC7 : List (String × HVal) :=
  [("ncols", .int 2), ("nrows", .int 2),
   ("xdim", .float (pnum (-1) 10)), ("ydim", .float (pnum 1 10)),
   ("xllcorner", .float (pnum 1500 10)), ("yllcorner", .float (pnum (-3320) 100)),
   ("byteorder", .str "lsb"), ("nodata", .int 0), ("layout", .str "bil"),
   ("nbands", .int 2), ("nbits", .int 32), ("pixeltype", .str "float")]

/-- A complete non-DEM header record with equal x cell size and |y| cell size. -/
def headerC7w : Headers :=
  [(WIDTH, .int 4), (FILE_LENGTH, .int 3), (X_STEP, .float (pnum 1 10)),
   (Y_STEP, .float (pnum (-1) 10)), (X_FIRST, .float (pnum 1500 10)),
   (Y_CORNER, .float (pnum (-333) 10)), (BYTE_ORDER, .str "lsb"),
   (IS_DEM, .bool false), (NODATA, .int 0), (NBANDS, .int 2),
   (NBITS, .int 32), (PIXEL_TYPE, .str "float")]

def contentC7w : List (String × HVal) :=
  [("ncols", .int 4), ("nrows", .int 3), ("cellsize", .float (pnum 1 10)),
   ("xllcorner", .float (pnum 1500 10)), ("yllcorner", .float (pnum (-333) 10)),
   ("byteorder", .str "lsb"), ("nodata", .int 0), ("layout", .str "bil"),
   ("nbands", .int 2), ("nbits", .int 32), ("pixeltype", .str "float")]

def paramsC8 : ConvParams := ⟨"out", none, 0, 0⟩

/-- A file system on which the destination geotiff already exists. -/
def fsC8 : FS := fun p => if p = "out/geo.unw.tif" then some "existing-bytes" else none

/-- An interferogram header that carries both `DATE` and `DATE12`. -/
def textC10 : String :=
  "WIDTH 2\nFILE_LENGTH 2\nX_FIRST 150.0\nX_STEP 0.1\nY_FIRST -33.0\nY_STEP -0.1\nDATE 100102\nDATE12 100102-100304\n"

def headerC10 : Headers :=
  [(WIDTH, .int 2), (FILE_LENGTH, .int 2), (X_FIRST, .float (pnum 1500 10)),
   (X_STEP, .float (pnum 1 10)), (Y_FIRST, .float (pnum (-330) 10)),
   (Y_STEP, .float (pnum (-1) 10)),
   (DATE, .date ⟨2010, 1, 2⟩), (DATE12, .dates [⟨2010, 1, 2⟩, ⟨2010, 3, 4⟩]),
   (MASTER, .date ⟨2010, 1, 2⟩), (SLAVE, .date ⟨2010, 3, 4⟩),
   (TIME_SPAN_YEAR, .float (pnum 6100 36525)),
   (X_LAST, .float (pnum 15020 100)), (Y_LAST, .float (pnum (-3320) 100))]

-- ---------------------------------------------------------------------------
-- Basic lemmas about the embedding's building blocks
-- ---------------------------------------------------------------------------

@[simp] theorem ok_bind {α β : Type} (a : α) (f : α → Except PyErr β) :
    (Except.ok a >>= f) = f a := rfl

@[simp] theorem error_bind {α β : Type} (e : PyErr) (f : α → Except PyErr β) :
    ((Except.error e : Except PyErr α) >>= f) = Except.error e := rfl

@[simp] theorem map_ok {α β : Type} (a : α) (f : α → β) :
    (Except.ok a : Except PyErr α).map f = Except.ok (f a) := rfl

@[simp] theorem map_error {α β : Type} (e : PyErr) (f : α → β) :
    (Except.error e : Except PyErr α).map f = Except.error e := rfl

theorem lookup_cons {α : Type} (k : String) (p : String × α) (l : List (String × α)) :
    (p :: l).lookup k = if k = p.1 then some p.2 else l.lookup k := by
  obtain ⟨k1, v1⟩ := p
  by_cases h : k = k1
  · subst h; simp [List.lookup]
  · simp only [List.lookup, beq_eq_false_iff_ne.mpr h]
    simp [h]

theorem lookup_dictInsert_self {α : Type} (m : List (String × α)) (k : String) (v : α) :
    (dictInsert m k v).lookup k = some v := by
  induction m with
  | nil => simp [dictInsert, lookup_cons]
  | cons p ps ih =>
    by_cases h : p.1 = k
    · simp [dictInsert, h, lookup_cons]
    · simp [dictInsert, h, lookup_cons, Ne.symm h, ih]

theorem lookup_dictInsert_ne {α : Type} (m : List (String × α)) (k k2 : String) (v : α)
    (h : k2 ≠ k) : (dictInsert m k v).lookup k2 = m.lookup k2 := by
  induction m with
  | nil => simp [dictInsert, lookup_cons, h]
  | cons p ps ih =>
    by_cases hp : p.1 = k
    · subst hp; simp [dictInsert, lookup_cons, h, ih]
    · simp [dictInsert, hp, lookup_cons, ih]

theorem hget_dictInsert_self (H : Headers) (k : String) (v : HVal) :
    hget (dictInsert H k v) k = .ok v := by
  simp [hget, lookup_dictInsert_self]

theorem hget_dictInsert_ne (H : Headers) (k k2 : String) (v : HVal) (h : k2 ≠ k) :
    hget (dictInsert H k v) k2 = hget H k2 := by
  simp [hget, lookup_dictInsert_ne _ _ _ _ h]

theorem hget_eq_lookup_some {H : Headers} {k : String} {v : HVal}
    (h : H.lookup k = some v) : hget H k = .ok v := by
  simp [hget, h]

theorem PyNum.den_cast_ne (a : PyNum) : ((a.den : ℚ)) ≠ 0 :=
  Int.cast_ne_zero.mpr (ne_of_gt a.dpos)

theorem PyNum.toRat_ofInt (z : Int) : (PyNum.ofInt z).toRat = (z : ℚ) := by
  simp [PyNum.ofInt, PyNum.toRat]

theorem PyNum.toRat_add (a b : PyNum) : (a.add b).toRat = a.toRat + b.toRat := by
  unfold PyNum.add PyNum.toRat
  rw [div_add_div _ _ a.den_cast_ne b.den_cast_ne]
  push_cast
  ring_nf

theorem PyNum.toRat_mul (a b : PyNum) : (a.mul b).toRat = a.toRat * b.toRat := by
  unfold PyNum.mul PyNum.toRat
  rw [div_mul_div_comm]
  push_cast
  ring_nf

theorem PyNum.toRat_neg (a : PyNum) : a.neg.toRat = -a.toRat := by
  unfold PyNum.neg PyNum.toRat
  push_cast
  ring_nf

theorem PyNum.toRat_abs (a : PyNum) : a.abs.toRat = |a.toRat| := by
  unfold PyNum.abs PyNum.toRat
  rw [abs_div]
  rw [abs_of_pos (show (0 : ℚ) < (a.den : ℚ) by exact_mod_cast a.dpos)]
  push_cast
  ring_nf

theorem PyNum.eqv_iff (a b : PyNum) : a.eqv b = true ↔ a.toRat = b.toRat := by
  unfold PyNum.eqv PyNum.toRat
  rw [div_eq_div_iff a.den_cast_ne b.den_cast_ne]
  rw [beq_iff_eq]
  constructor
  · intro h; exact_mod_cast h
  · intro h; exact_mod_cast h

theorem PyNum.lt_iff (a b : PyNum) : a.lt b = true ↔ a.toRat < b.toRat := by
  unfold PyNum.lt PyNum.toRat
  rw [div_lt_div_iff₀ (show (0 : ℚ) < (a.den : ℚ) by exact_mod_cast a.dpos)
    (show (0 : ℚ) < (b.den : ℚ) by exact_mod_cast b.dpos)]
  rw [decide_eq_true_eq]
  constructor
  · intro h; exact_mod_cast h
  · intro h; exact_mod_cast h

theorem PyNum.toRat_div365 (d : Int) : (PyNum.div365 d).toRat = (d : ℚ) / (365.25 : ℚ) := by
  unfold PyNum.div365 PyNum.toRat
  rw [show (365.25 : ℚ) = 1461 / 4 by norm_num]
  push_cast
  field_simp
  ring

-- ---------------------------------------------------------------------------
-- Lemmas about the parse pipeline stages
-- ---------------------------------------------------------------------------

theorem coerceHeaders_lookup {R : List (String × String)} {H : Headers}
    (h : coerceHeaders R = .ok H) (k : String) :
    (R.lookup k = none ∧ H.lookup k = none) ∨
    (∃ r v, R.lookup k = some r ∧ H.lookup k = some v ∧ coerceVal k r = .ok v) := by
  induction R generalizing H with
  | nil =>
    simp only [coerceHeaders] at h
    cases h
    left; simp [List.lookup]
  | cons p ps ih =>
    obtain ⟨k1, v1⟩ := p
    simp only [coerceHeaders] at h
    cases hc : coerceVal k1 v1 with
    | error e => rw [hc, error_bind] at h; cases h
    | ok hv =>
      rw [hc, ok_bind] at h
      cases hr : coerceHeaders ps with
      | error e => rw [hr, error_bind] at h; cases h
      | ok rest =>
        rw [hr, ok_bind] at h
        cases h
        by_cases hk : k = k1
        · subst hk
          right
          exact ⟨v1, hv, by simp [lookup_cons], by simp [lookup_cons], hc⟩
        · rcases ih hr with ⟨h1, h2⟩ | ⟨r, v, h1, h2, h3⟩
          · left; simp [lookup_cons, hk, h1, h2]
          · right; exact ⟨r, v, by simp [lookup_cons, hk, h1], by simp [lookup_cons, hk, h2], h3⟩

theorem coerceHeaders_lookup_none {R : List (String × String)} {H : Headers}
    (h : coerceHeaders R = .ok H) (k : String) :
    H.lookup k = none ↔ R.lookup k = none := by
  rcases coerceHeaders_lookup h k with ⟨h1, h2⟩ | ⟨r, v, h1, h2, _⟩
  · simp [h1, h2]
  · simp [h1, h2]

theorem coerceVal_xlast (r : String) :
    coerceVal X_LAST r = .error (.roipac (unrecognisedMsg X_LAST r)) := rfl

theorem coerceVal_ylast (r : String) :
    coerceVal Y_LAST r = .error (.roipac (unrecognisedMsg Y_LAST r)) := rfl

theorem coerceVal_xfirst (r : String) : coerceVal X_FIRST r = (pyFloat r).map .float := rfl
theorem coerceVal_xstep (r : String) : coerceVal X_STEP r = (pyFloat r).map .float := rfl
theorem coerceVal_yfirst (r : String) : coerceVal Y_FIRST r = (pyFloat r).map .float := rfl
theorem coerceVal_ystep (r : String) : coerceVal Y_STEP r = (pyFloat r).map .float := rfl
theorem coerceVal_width (r : String) : coerceVal WIDTH r = (pyInt r).map .int := rfl
theorem coerceVal_filelen (r : String) : coerceVal FILE_LENGTH r = (pyInt r).map .int := rfl

theorem fillDates_lookup {H Hf : Headers} {p : String} (h : fillDatesFromPath H p = .ok Hf)
    (k : String) (h1 : k ≠ DATE) (h2 : k ≠ DATE12) : Hf.lookup k = H.lookup k := by
  unfold fillDatesFromPath at h
  by_cases happ : ((H.lookup DATE).isNone || (H.lookup DATE12).isNone) = true
  · rw [if_pos happ] at h
    cases hrs : reSearchDates p with
    | none => simp only [hrs] at h; cases h
    | some s =>
      simp only [hrs] at h
      by_cases hlen : s.length = 13
      · rw [if_pos hlen] at h
        cases hp : parse_date s with
        | error e => rw [hp, error_bind] at h; cases h
        | ok d12 =>
          rw [hp, ok_bind] at h
          cases hi : pyIndex0 d12 with
          | error e => rw [hi, error_bind] at h; cases h
          | ok d0 =>
            rw [hi, ok_bind] at h
            cases h
            rw [lookup_dictInsert_ne _ _ _ _ h2, lookup_dictInsert_ne _ _ _ _ h1]
      · rw [if_neg hlen] at h; cases h; rfl
  · rw [if_neg happ] at h; cases h; rfl

theorem setMasterSlave_ok {H H2 : Headers} (h : setMasterSlave H = .ok H2) :
    ∃ ma l sl, H.lookup DATE = some (.date ma) ∧ H.lookup DATE12 = some (.dates l) ∧
      l.getLast? = some sl ∧
      H2 = dictInsert (dictInsert (dictInsert H MASTER (.date ma)) SLAVE (.date sl))
        TIME_SPAN_YEAR (.float (PyNum.div365 (daysFromCivil sl - daysFromCivil ma))) := by
  unfold setMasterSlave at h
  cases hdv : hget H DATE with
  | error e => rw [hdv, error_bind] at h; cases h
  | ok dv =>
    rw [hdv, ok_bind] at h
    cases hd12 : hget (dictInsert H MASTER dv) DATE12 with
    | error e => rw [hd12, error_bind] at h; cases h
    | ok d12 =>
      rw [hd12, ok_bind] at h
      cases hdl : pyIndexLast d12 with
      | error e => rw [hdl, error_bind] at h; cases h
      | ok dl =>
        rw [hdl, ok_bind] at h
        rw [hget_dictInsert_self] at h
        rw [ok_bind] at h
        rw [hget_dictInsert_ne _ _ _ _ (by decide : MASTER ≠ SLAVE),
          hget_dictInsert_self, ok_bind] at h
        cases hsub : pySubDates dl dv with
        | error e => rw [hsub, error_bind] at h; cases h
        | ok days =>
          rw [hsub, ok_bind] at h
          cases h
          cases dl with
          | date sl =>
            cases dv with
            | date ma =>
              cases d12 with
              | dates l =>
                simp only [pyIndexLast] at hdl
                cases hl : l.getLast? with
                | none => rw [hl] at hdl; cases hdl
                | some d =>
                  rw [hl] at hdl
                  cases hdl
                  unfold pySubDates at hsub
                  cases hsub
                  refine ⟨ma, l, sl, ?_, ?_, hl, rfl⟩
                  · unfold hget at hdv
                    cases hL : H.lookup DATE with
                    | none => rw [hL] at hdv; cases hdv
                    | some v => rw [hL] at hdv; cases hdv; rfl
                  · unfold hget at hd12
                    rw [lookup_dictInsert_ne _ _ _ _ (by decide : DATE12 ≠ MASTER)] at hd12
                    cases hL : H.lookup DATE12 with
                    | none => rw [hL] at hd12; cases hd12
                    | some v => rw [hL] at hd12; cases hd12; rfl
              | int z => simp [pyIndexLast] at hdl
              | float q => simp [pyIndexLast] at hdl
              | str s2 => simp [pyIndexLast] at hdl
              | date d2 => simp [pyIndexLast] at hdl
              | bool b => simp [pyIndexLast] at hdl
            | int z => cases hsub
            | float q => cases hsub
            | str s => cases hsub
            | dates ds => cases hsub
            | bool b => cases hsub
          | int z => cases hsub
          | float q => cases hsub
          | str s => cases hsub
          | dates ds => cases hsub
          | bool b => cases hsub

theorem setMasterSlave_lookup {H H2 : Headers} (h : setMasterSlave H = .ok H2) (k : String)
    (h1 : k ≠ MASTER) (h2 : k ≠ SLAVE) (h3 : k ≠ TIME_SPAN_YEAR) :
    H2.lookup k = H.lookup k := by
  obtain ⟨ma, l, sl, _, _, _, rfl⟩ := setMasterSlave_ok h
  rw [lookup_dictInsert_ne _ _ _ _ h3, lookup_dictInsert_ne _ _ _ _ h2,
    lookup_dictInsert_ne _ _ _ _ h1]

theorem synthLast_ok_of_absent {H H2 : Headers} (h : synthLast H = .ok H2)
    (hx : H.lookup X_LAST = none) (hy : H.lookup Y_LAST = none) :
    ∃ a s n qx b t m qy,
      H.lookup X_FIRST = some a ∧ H.lookup X_STEP = some s ∧ H.lookup WIDTH = some n ∧
      pyAddMul a s n = .ok qx ∧
      H.lookup Y_FIRST = some b ∧ H.lookup Y_STEP = some t ∧ H.lookup FILE_LENGTH = some m ∧
      pyAddMul b t m = .ok qy ∧
      H2 = dictInsert (dictInsert H X_LAST (.float qx)) Y_LAST (.float qy) := by
  unfold synthLast at h
  rw [hx] at h
  simp only [Option.isNone_none, if_true] at h
  cases ha : hget H X_FIRST with
  | error e => rw [ha, error_bind] at h; cases h
  | ok a =>
    rw [ha, ok_bind] at h
    cases hs : hget H X_STEP with
    | error e => rw [hs, error_bind] at h; cases h
    | ok s =>
      rw [hs, ok_bind] at h
      cases hn : hget H WIDTH with
      | error e => rw [hn, error_bind] at h; cases h
      | ok n =>
        rw [hn, ok_bind] at h
        cases hq : pyAddMul a s n with
        | error e => rw [hq, error_bind] at h; cases h
        | ok qx =>
          rw [hq, ok_bind, ok_bind] at h
          rw [lookup_dictInsert_ne _ _ _ _ (by decide : Y_LAST ≠ X_LAST), hy] at h
          simp only [Option.isNone_none, if_true] at h
          rw [hget_dictInsert_ne _ _ _ _ (by decide : Y_FIRST ≠ X_LAST)] at h
          cases hb : hget H Y_FIRST with
          | error e => rw [hb, error_bind] at h; cases h
          | ok b =>
            rw [hb, ok_bind] at h
            rw [hget_dictInsert_ne _ _ _ _ (by decide : Y_STEP ≠ X_LAST)] at h
            cases ht : hget H Y_STEP with
            | error e => rw [ht, error_bind] at h; cases h
            | ok t =>
              rw [ht, ok_bind] at h
              rw [hget_dictInsert_ne _ _ _ _ (by decide : FILE_LENGTH ≠ X_LAST)] at h
              cases hm : hget H FILE_LENGTH with
              | error e => rw [hm, error_bind] at h; cases h
              | ok m =>
                rw [hm, ok_bind] at h
                cases hqy : pyAddMul b t m with
                | error e => rw [hqy, error_bind] at h; cases h
                | ok qy =>
                  rw [hqy, ok_bind] at h
                  cases h
                  unfold hget at ha hs hn hb ht hm
                  refine ⟨a, s, n, qx, b, t, m, qy, ?_, ?_, ?_, hq, ?_, ?_, ?_, hqy, rfl⟩
                  · cases hL : H.lookup X_FIRST with
                    | none => rw [hL] at ha; cases ha
                    | some v => rw [hL] at ha; cases ha; rfl
                  · cases hL : H.lookup X_STEP with
                    | none => rw [hL] at hs; cases hs
                    | some v => rw [hL] at hs; cases hs; rfl
                  · cases hL : H.lookup WIDTH with
                    | none => rw [hL] at hn; cases hn
                    | some v => rw [hL] at hn; cases hn; rfl
                  · cases hL : H.lookup Y_FIRST with
                    | none => rw [hL] at hb; cases hb
                    | some v => rw [hL] at hb; cases hb; rfl
                  · cases hL : H.lookup Y_STEP with
                    | none => rw [hL] at ht; cases ht
                    | some v => rw [hL] at ht; cases ht; rfl
                  · cases hL : H.lookup FILE_LENGTH with
                    | none => rw [hL] at hm; cases hm
                    | some v => rw [hL] at hm; cases hm; rfl

theorem synthLast_lookup {H H2 : Headers} (h : synthLast H = .ok H2) (k : String)
    (hkx : k ≠ X_LAST) (hky : k ≠ Y_LAST) : H2.lookup k = H.lookup k := by
  unfold synthLast at h
  by_cases hx : (H.lookup X_LAST).isNone = true
  all_goals (
    first
    | rw [if_pos hx] at h
    | rw [if_neg hx] at h)
  · cases ha : hget H X_FIRST with
    | error e => rw [ha, error_bind] at h; cases h
    | ok a =>
      rw [ha, ok_bind] at h
      cases hs : hget H X_STEP with
      | error e => rw [hs, error_bind] at h; cases h
      | ok s =>
        rw [hs, ok_bind] at h
        cases hn : hget H WIDTH with
        | error e => rw [hn, error_bind] at h; cases h
        | ok n =>
          rw [hn, ok_bind] at h
          cases hq : pyAddMul a s n with
          | error e => rw [hq, error_bind] at h; cases h
          | ok qx =>
            rw [hq, ok_bind, ok_bind] at h
            by_cases hyy : ((dictInsert H X_LAST (.float qx)).lookup Y_LAST).isNone = true
            · rw [if_pos hyy] at h
              cases hb : hget (dictInsert H X_LAST (.float qx)) Y_FIRST with
              | error e => rw [hb, error_bind] at h; cases h
              | ok b =>
                rw [hb, ok_bind] at h
                cases ht : hget (dictInsert H X_LAST (.float qx)) Y_STEP with
                | error e => rw [ht, error_bind] at h; cases h
                | ok t =>
                  rw [ht, ok_bind] at h
                  cases hm : hget (dictInsert H X_LAST (.float qx)) FILE_LENGTH with
                  | error e => rw [hm, error_bind] at h; cases h
                  | ok m =>
                    rw [hm, ok_bind] at h
                    cases hqy : pyAddMul b t m with
                    | error e => rw [hqy, error_bind] at h; cases h
                    | ok qy =>
                      rw [hqy, ok_bind] at h
                      cases h
                      rw [lookup_dictInsert_ne _ _ _ _ hky, lookup_dictInsert_ne _ _ _ _ hkx]
            · rw [if_neg hyy] at h
              cases h
              rw [lookup_dictInsert_ne _ _ _ _ hkx]
  · rw [ok_bind] at h
    by_cases hyy : (H.lookup Y_LAST).isNone = true
    · rw [if_pos hyy] at h
      cases hb : hget H Y_FIRST with
      | error e => rw [hb, error_bind] at h; cases h
      | ok b =>
        rw [hb, ok_bind] at h
        cases ht : hget H Y_STEP with
        | error e => rw [ht, error_bind] at h; cases h
        | ok t =>
          rw [ht, ok_bind] at h
          cases hm : hget H FILE_LENGTH with
          | error e => rw [hm, error_bind] at h; cases h
          | ok m =>
            rw [hm, ok_bind] at h
            cases hqy : pyAddMul b t m with
            | error e => rw [hqy, error_bind] at h; cases h
            | ok qy =>
              rw [hqy, ok_bind] at h
              cases h
              rw [lookup_dictInsert_ne _ _ _ _ hky]
    · rw [if_neg hyy] at h
      cases h
      rfl

theorem deriveDates_dem {H : Headers} {p : String} (hd : (H.lookup DATUM).isSome) :
    deriveDates H p = .ok H := by
  unfold deriveDates
  rw [if_pos hd]

theorem deriveDates_not_dem {H : Headers} {p : String} (hd : H.lookup DATUM = none) :
    deriveDates H p = fillDatesFromPath H p >>= setMasterSlave := by
  unfold deriveDates
  rw [if_neg (by simp [hd])]

theorem parse_header_ok_decomp {text path : String} {H : Headers}
    (h : parse_header text path = .ok H) :
    ∃ R h1 h2, rawHeaders text path = .ok R ∧ coerceHeaders R = .ok h1 ∧
      deriveDates h1 path = .ok h2 ∧ synthLast h2 = .ok H := by
  unfold parse_header at h
  cases hr : rawHeaders text path with
  | error e => rw [hr, error_bind] at h; cases h
  | ok R =>
    rw [hr, ok_bind] at h
    cases hc : coerceHeaders R with
    | error e => rw [hc, error_bind] at h; cases h
    | ok h1 =>
      rw [hc, ok_bind] at h
      cases hd : deriveDates h1 path with
      | error e => rw [hd, error_bind] at h; cases h
      | ok h2 =>
        rw [hd, ok_bind] at h
        exact ⟨R, h1, h2, rfl, hc, hd, h⟩

-- ---------------------------------------------------------------------------
-- Lemmas about the raw line/dict stage
-- ---------------------------------------------------------------------------

theorem linesToPairs_malformed {p : String} {ls : List (List Char)} {l : List Char}
    (hm : l ∈ ls) (hbad : (wsTokens l).length ≠ 2) :
    linesToPairs p ls = .error (.roipac (malformedMsg p)) := by
  induction ls with
  | nil => cases hm
  | cons l0 rest ih =>
    rcases List.mem_cons.mp hm with rfl | hm2
    · unfold linesToPairs
      cases ht : wsTokens l with
      | nil => rfl
      | cons k t =>
        cases t with
        | nil => rfl
        | cons v t2 =>
          cases t2 with
          | nil => exact absurd (by rw [ht]; rfl) hbad
          | cons w t3 => rfl
    · unfold linesToPairs
      cases ht : wsTokens l0 with
      | nil => rfl
      | cons k t =>
        cases t with
        | nil => rfl
        | cons v t2 =>
          cases t2 with
          | nil =>
            dsimp only
            rw [ih hm2]
            rfl
          | cons w t3 => rfl

theorem linesToPairs_ok_pairs {p : String} {ls : List (List Char)} {ps : List (String × String)}
    (h : linesToPairs p ls = .ok ps) :
    ps = ls.filterMap (fun l =>
      match wsTokens l with
      | [k, v] => some (String.mk k, String.mk v)
      | _ => none) := by
  induction ls generalizing ps with
  | nil =>
    unfold linesToPairs at h
    cases h
    rfl
  | cons l0 rest ih =>
    unfold linesToPairs at h
    cases ht : wsTokens l0 with
    | nil => rw [ht] at h; cases h
    | cons k t =>
      cases t with
      | nil => rw [ht] at h; cases h
      | cons v t2 =>
        cases t2 with
        | nil =>
          rw [ht] at h
          dsimp only at h
          cases hr : linesToPairs p rest with
          | error e => rw [hr, map_error] at h; cases h
          | ok ps2 =>
            rw [hr, map_ok] at h
            cases h
            simp [List.filterMap_cons, ht, ih hr]
        | cons w t3 => rw [ht] at h; cases h

theorem linesToPairs_path {p1 p2 : String} {ls : List (List Char)} {ps : List (String × String)}
    (h : linesToPairs p1 ls = .ok ps) : linesToPairs p2 ls = .ok ps := by
  induction ls generalizing ps with
  | nil =>
    unfold linesToPairs at h ⊢
    cases h; rfl
  | cons l0 rest ih =>
    unfold linesToPairs at h ⊢
    cases ht : wsTokens l0 with
    | nil => rw [ht] at h; cases h
    | cons k t =>
      cases t with
      | nil => rw [ht] at h; cases h
      | cons v t2 =>
        cases t2 with
        | nil =>
          rw [ht] at h
          dsimp only at h ⊢
          cases hr : linesToPairs p1 rest with
          | error e => rw [hr, map_error] at h; cases h
          | ok ps2 =>
            rw [hr, map_ok] at h
            rw [ih hr, map_ok]
            exact h
        | cons w t3 => rw [ht] at h; cases h

theorem lastValue_cons {α : Type} (k : String) (q : String × α) (rest : List (String × α)) :
    lastValue k (q :: rest) =
      match lastValue k rest with
      | some v => some v
      | none => if q.1 = k then some q.2 else none := rfl

theorem lookup_foldl_dictInsert {α : Type} (ps : List (String × α)) (acc : List (String × α))
    (k : String) :
    (ps.foldl (fun m kv => dictInsert m kv.1 kv.2) acc).lookup k =
      match lastValue k ps with
      | some v => some v
      | none => acc.lookup k := by
  induction ps generalizing acc with
  | nil => rfl
  | cons q rest ih =>
    rw [List.foldl_cons, ih, lastValue_cons]
    cases hl : lastValue k rest with
    | some v => rfl
    | none =>
      by_cases hq : q.1 = k
      · subst hq
        simp [lookup_dictInsert_self]
      · simp [hq, lookup_dictInsert_ne _ _ _ _ (fun hk => hq hk.symm)]

theorem rawHeaders_ok_lookup {text path : String} {R : List (String × String)}
    (h : rawHeaders text path = .ok R) (k : String) :
    R.lookup k = lastValue k (linePairsOf text) := by
  unfold rawHeaders at h
  cases hl : linesToPairs path (nonEmptyLines text) with
  | error e => rw [hl, map_error] at h; cases h
  | ok ps =>
    rw [hl, map_ok] at h
    cases h
    rw [lookup_foldl_dictInsert]
    rw [show linePairsOf text = ps from (linesToPairs_ok_pairs hl).symm]
    cases lastValue k ps with
    | some v => rfl
    | none => rfl

theorem rawHeaders_ok_path {text p1 p2 : String} {R : List (String × String)}
    (h : rawHeaders text p1 = .ok R) : rawHeaders text p2 = .ok R := by
  unfold rawHeaders at h ⊢
  cases hl : linesToPairs p1 (nonEmptyLines text) with
  | error e => rw [hl, map_error] at h; cases h
  | ok ps =>
    rw [hl, map_ok] at h
    rw [linesToPairs_path hl, map_ok]
    exact h

-- ---------------------------------------------------------------------------
-- Claims
-- ---------------------------------------------------------------------------

theorem yllcornerOf_insert_isdem (H : Headers) (v : HVal) :
    yllcornerOf (dictInsert H IS_DEM v) = yllcornerOf H := by
  unfold yllcornerOf
  rw [hget_dictInsert_ne _ _ _ _ (by decide : Y_FIRST ≠ IS_DEM),
    hget_dictInsert_ne _ _ _ _ (by decide : FILE_LENGTH ≠ IS_DEM),
    hget_dictInsert_ne _ _ _ _ (by decide : Y_STEP ≠ IS_DEM)]

theorem resolveDest_error {b : Bool} {hdr : String} {dest : Option String} {e : PyErr}
    (h : resolveDest b hdr dest = .error e) : ∃ m, e = .roipac m := by
  unfold resolveDest at h
  cases dest with
  | some d => cases h
  | none =>
    dsimp only at h
    split at h
    · cases hf : strFind hdr "dem.rsc" with
      | some i => rw [hf] at h; cases h
      | none => rw [hf] at h; cases h; exact ⟨_, rfl⟩
    · split at h
      · cases h
      · cases h; exact ⟨_, rfl⟩

theorem yll_check_iff (q : PyNum) :
    ((PyNum.ofInt 90).lt q || q.lt (PyNum.ofInt (-90))) = true ↔
      (90 < q.toRat ∨ q.toRat < -90) := by
  rw [Bool.or_eq_true, PyNum.lt_iff, PyNum.lt_iff, PyNum.toRat_ofInt, PyNum.toRat_ofInt]
  norm_num

/-- C1: for every parsed header, the lower-left corner latitude
`yllcorner = y_first + height * y_step` must satisfy `-90 ≤ yllcorner ≤ 90` when
`translate_header` runs: a violation makes `translate_header` raise a
`RoipacException` (never a recoverable or silently-corrected result), and any
successful translation implies the invariant held. -/
theorem c1_yllcorner_invariant (text hdr : String) (dest : Option String) (H : Headers)
    (q : PyNum) (hp : parse_header text hdr = .ok H) (hq : yllcornerOf H = .ok q) :
    ((90 < q.toRat ∨ q.toRat < -90) →
      ∃ m, translate_header true text hdr dest = .error (.roipac m)) ∧
    (∀ r, translate_header true text hdr dest = .ok r → -90 ≤ q.toRat ∧ q.toRat ≤ 90) := by
  have hyll : yllcornerOf (dictInsert H IS_DEM (.bool ((H.lookup DATUM).isSome))) = .ok q := by
    rw [yllcornerOf_insert_isdem]; exact hq
  have hunf : translate_header true text hdr dest =
      (resolveDest ((H.lookup DATUM).isSome) hdr dest) >>= (fun d =>
        if (PyNum.ofInt 90).lt q || q.lt (PyNum.ofInt (-90)) then .error (.roipac yllMsg)
        else write_bil_header d (translatedFields H q)) := by
    unfold translate_header
    rw [if_pos (show (true : Bool) = true from rfl)]
    rw [hp, ok_bind]
    cases hd : resolveDest ((H.lookup DATUM).isSome) hdr dest with
    | error e => rw [error_bind, error_bind]
    | ok d => rw [ok_bind, ok_bind, hyll, ok_bind]
  constructor
  · intro hviol
    cases hd : resolveDest ((H.lookup DATUM).isSome) hdr dest with
    | error e =>
      obtain ⟨m, rfl⟩ := resolveDest_error hd
      exact ⟨m, by rw [hunf, hd, error_bind]⟩
    | ok d =>
      refine ⟨yllMsg, ?_⟩
      rw [hunf, hd, ok_bind, if_pos ((yll_check_iff q).mpr hviol)]
  · intro r hr
    rw [hunf] at hr
    cases hd : resolveDest ((H.lookup DATUM).isSome) hdr dest with
    | error e => rw [hd, error_bind] at hr; cases hr
    | ok d =>
      rw [hd, ok_bind] at hr
      by_cases hchk : ((PyNum.ofInt 90).lt q || q.lt (PyNum.ofInt (-90))) = true
      · rw [if_pos hchk] at hr; cases hr
      · have hb := (not_iff_not.mpr (yll_check_iff q)).mp hchk
        push_neg at hb
        exact ⟨hb.2, hb.1⟩

theorem c1_yllcorner_invariant_witness :
    ∃ m, translate_header true textC1 "sydney.dem.rsc" none = .error (.roipac m) :=
  (c1_yllcorner_invariant textC1 "sydney.dem.rsc" none headerC1
    (⟨9100, 100, by norm_num⟩ : PyNum) (by decide) (by decide)).1
    (Or.inl (by norm_num [PyNum.toRat]))

/-- C10: for a non-elevation-model header whose path's last occurrence of
`unw.rsc` or `tif.rsc` starts at character index 0, `translate_header` without
an explicit destination raises the unrecognised-file-naming-pattern
`RoipacException`, because a destination is derived only for a strictly
positive index. -/
theorem c10_naming_index_zero (text hdr : String) (H : Headers)
    (hp : parse_header text hdr = .ok H) (hdem : H.lookup DATUM = none)
    (hi : max (strRfind hdr "unw.rsc") (strRfind hdr "tif.rsc") = 0) :
    translate_header true text hdr none = .error (.roipac (namingMsg hdr)) := by
  unfold translate_header
  rw [if_pos (show (true : Bool) = true from rfl), hp, ok_bind]
  have hres : resolveDest ((H.lookup DATUM).isSome) hdr none = .error (.roipac (namingMsg hdr)) := by
    rw [hdem]
    unfold resolveDest
    dsimp only
    rw [if_neg (by simp : ¬((none : Option HVal).isSome = true))]
    rw [hi]
    rw [if_neg (by norm_num : ¬((0 : Int) > 0))]
  rw [hres, error_bind]

theorem c10_naming_index_zero_witness :
    translate_header true textC10 "unw.rsc" none = .error (.roipac (namingMsg "unw.rsc")) :=
  c10_naming_index_zero textC10 "unw.rsc" headerC10 (by decide) (by decide) (by decide)

/-- C5: every successfully parsed non-elevation-model header carries
`MASTER`/`SLAVE` dates and a `TIME_SPAN_YEAR` equal to
`(slave - master).days / 365.25`, regardless of any `TIME_SPAN_YEAR` present in
the source header text (the computed value overrides it). -/
theorem c5_time_span (text path : String) (H : Headers)
    (hp : parse_header text path = .ok H) (hdem : H.lookup DATUM = none) :
    ∃ ma sl ts, H.lookup MASTER = some (.date ma) ∧ H.lookup SLAVE = some (.date sl) ∧
      H.lookup TIME_SPAN_YEAR = some (.float ts) ∧
      ts.toRat = ((daysFromCivil sl - daysFromCivil ma : Int) : ℚ) / (365.25 : ℚ) := by
  obtain ⟨R, h1, h2, hr, hc, hd, hs⟩ := parse_header_ok_decomp hp
  cases hdm : h1.lookup DATUM with
  | some v =>
    have hder : deriveDates h1 path = .ok h1 := deriveDates_dem (by rw [hdm]; rfl)
    rw [hder] at hd
    cases hd
    have hpres := synthLast_lookup hs DATUM (by decide) (by decide)
    rw [hdem, hdm] at hpres
    cases hpres
  | none =>
    rw [deriveDates_not_dem hdm] at hd
    cases hf : fillDatesFromPath h1 path with
    | error e => rw [hf, error_bind] at hd; cases hd
    | ok Hf =>
      rw [hf, ok_bind] at hd
      obtain ⟨ma, l, sl, hDa, hD12, hLast, rfl⟩ := setMasterSlave_ok hd
      have hM := synthLast_lookup hs MASTER (by decide) (by decide)
      have hS := synthLast_lookup hs SLAVE (by decide) (by decide)
      have hT := synthLast_lookup hs TIME_SPAN_YEAR (by decide) (by decide)
      refine ⟨ma, sl, PyNum.div365 (daysFromCivil sl - daysFromCivil ma), ?_, ?_, ?_, ?_⟩
      · rw [hM, lookup_dictInsert_ne _ _ _ _ (by decide : MASTER ≠ TIME_SPAN_YEAR),
          lookup_dictInsert_ne _ _ _ _ (by decide : MASTER ≠ SLAVE), lookup_dictInsert_self]
      · rw [hS, lookup_dictInsert_ne _ _ _ _ (by decide : SLAVE ≠ TIME_SPAN_YEAR),
          lookup_dictInsert_self]
      · rw [hT, lookup_dictInsert_self]
      · exact PyNum.toRat_div365 _

theorem c5_time_span_witness :
    ∃ ma sl ts, headerC5.lookup MASTER = some (.date ma) ∧
      headerC5.lookup SLAVE = some (.date sl) ∧
      headerC5.lookup TIME_SPAN_YEAR = some (.float ts) ∧
      ts.toRat = ((daysFromCivil sl - daysFromCivil ma : Int) : ℚ) / (365.25 : ℚ) :=
  c5_time_span textC5 "obs/geo_100102-100304.unw.rsc" headerC5 (by decide) (by decide)

/-- C2 counterexample: this header carries a `DATE` line (so it does not lack
both date fields), yet parsing under a file name without a `dddddd-dddddd`
pattern fails with the missing-dates `RoipacException`: the filename
date-derivation rule was applied although only `DATE12` is missing. -/
theorem c2_date_rule_counterexample :
    rawHeaders textC2 "geo.unw.rsc" = .ok rawC2 ∧
    rawC2.lookup DATE = some "100102" ∧ rawC2.lookup DATE12 = none ∧
    parse_header textC2 "geo.unw.rsc" = .error (.roipac (missingDatesMsg "geo.unw.rsc")) :=
  ⟨by decide, by decide, by decide, by decide⟩

/-- C2 (amended): for a non-elevation-model header lacking `DATE` or lacking
`DATE12` (not necessarily both), `parse_header` applies the filename
date-derivation rule: with no `dddddd-dddddd` pattern in the file name it fails
with the missing-dates error, and with a pattern of two valid dates the parsed
header maps `MASTER` to the first and `SLAVE` to the second date of the pair. -/
theorem c2_date_rule_amended (text path : String) (R : List (String × String)) (H1 : Headers)
    (hr : rawHeaders text path = .ok R) (hc : coerceHeaders R = .ok H1)
    (hdem : H1.lookup DATUM = none)
    (hmiss : H1.lookup DATE = none ∨ H1.lookup DATE12 = none) :
    (reSearchDates path = none →
      parse_header text path = .error (.roipac (missingDatesMsg path))) ∧
    (∀ s a b H, reSearchDates path = some s → s.length = 13 →
      parse_date s = .ok (.dates [a, b]) → parse_header text path = .ok H →
      H.lookup MASTER = some (.date a) ∧ H.lookup SLAVE = some (.date b)) := by
  have happ : ((H1.lookup DATE).isNone || (H1.lookup DATE12).isNone) = true := by
    rcases hmiss with h | h <;> simp [h]
  constructor
  · intro hnone
    have hfill : fillDatesFromPath H1 path = .error (.roipac (missingDatesMsg path)) := by
      unfold fillDatesFromPath
      rw [if_pos happ, hnone]
    unfold parse_header
    rw [hr, ok_bind, hc, ok_bind, deriveDates_not_dem hdem, hfill, error_bind, error_bind]
  · intro s a b H hsome hlen hpd hp
    have hfill : fillDatesFromPath H1 path =
        .ok (dictInsert (dictInsert H1 DATE (.date a)) DATE12 (.dates [a, b])) := by
      unfold fillDatesFromPath
      rw [if_pos happ, hsome]
      dsimp only
      rw [if_pos hlen, hpd, ok_bind]
      rfl
    obtain ⟨R2, h1x, h2x, hr2, hc2, hd2, hs2⟩ := parse_header_ok_decomp hp
    rw [hr] at hr2
    cases hr2
    rw [hc] at hc2
    cases hc2
    rw [deriveDates_not_dem hdem, hfill, ok_bind] at hd2
    obtain ⟨ma, l, sl, hDa, hD12, hLast, rfl⟩ := setMasterSlave_ok hd2
    rw [lookup_dictInsert_ne _ _ _ _ (by decide : DATE ≠ DATE12),
      lookup_dictInsert_self] at hDa
    cases hDa
    rw [lookup_dictInsert_self] at hD12
    cases hD12
    have hsl : sl = b := by
      have : ([a, b] : List PyDate).getLast? = some b := rfl
      rw [this] at hLast
      cases hLast
      rfl
    subst hsl
    have hM := synthLast_lookup hs2 MASTER (by decide) (by decide)
    have hS := synthLast_lookup hs2 SLAVE (by decide) (by decide)
    constructor
    · rw [hM, lookup_dictInsert_ne _ _ _ _ (by decide : MASTER ≠ TIME_SPAN_YEAR),
        lookup_dictInsert_ne _ _ _ _ (by decide : MASTER ≠ SLAVE), lookup_dictInsert_self]
    · rw [hS, lookup_dictInsert_ne _ _ _ _ (by decide : SLAVE ≠ TIME_SPAN_YEAR),
        lookup_dictInsert_self]

theorem c2_date_rule_amended_witness :
    headerDates1.lookup MASTER = some (.date ⟨2010, 1, 2⟩) ∧
    headerDates1.lookup SLAVE = some (.date ⟨2010, 3, 4⟩) :=
  (c2_date_rule_amended textNoDates "obs/geo_100102-100304.unw.rsc" rawNoDates coercedNoDates
    (by decide) (by decide) (by decide) (Or.inl (by decide))).2
    "100102-100304" ⟨2010, 1, 2⟩ ⟨2010, 3, 4⟩ headerDates1
    (by decide) (by decide) (by decide) (by decide)

theorem deriveDates_lookup {h1 h2 : Headers} {path : String} (hd : deriveDates h1 path = .ok h2)
    (k : String) (k1 : k ≠ DATE) (k2 : k ≠ DATE12) (k3 : k ≠ MASTER) (k4 : k ≠ SLAVE)
    (k5 : k ≠ TIME_SPAN_YEAR) : h2.lookup k = h1.lookup k := by
  unfold deriveDates at hd
  split at hd
  · cases hd; rfl
  · cases hf : fillDatesFromPath h1 path with
    | error e => rw [hf, error_bind] at hd; cases hd
    | ok Hf =>
      rw [hf, ok_bind] at hd
      rw [setMasterSlave_lookup hd k k3 k4 k5, fillDates_lookup hf k k1 k2]

theorem lookup_float_shape {R : List (String × String)} {h1 : Headers}
    (hc : coerceHeaders R = .ok h1) {k : String} {v : HVal}
    (hcv : ∀ r, coerceVal k r = (pyFloat r).map .float)
    (hl : h1.lookup k = some v) : ∃ q, v = .float q := by
  rcases coerceHeaders_lookup hc k with ⟨h1n, h2n⟩ | ⟨r, v2, hR, hH, hcvr⟩
  · rw [h2n] at hl; cases hl
  · rw [hH] at hl
    cases hl
    rw [hcv r] at hcvr
    cases hpf : pyFloat r with
    | error e => rw [hpf, map_error] at hcvr; cases hcvr
    | ok q => rw [hpf, map_ok] at hcvr; cases hcvr; exact ⟨q, rfl⟩

theorem lookup_int_shape {R : List (String × String)} {h1 : Headers}
    (hc : coerceHeaders R = .ok h1) {k : String} {v : HVal}
    (hcv : ∀ r, coerceVal k r = (pyInt r).map .int)
    (hl : h1.lookup k = some v) : ∃ z, v = .int z := by
  rcases coerceHeaders_lookup hc k with ⟨h1n, h2n⟩ | ⟨r, v2, hR, hH, hcvr⟩
  · rw [h2n] at hl; cases hl
  · rw [hH] at hl
    cases hl
    rw [hcv r] at hcvr
    cases hpf : pyInt r with
    | error e => rw [hpf, map_error] at hcvr; cases hcvr
    | ok z => rw [hpf, map_ok] at hcvr; cases hcvr; exact ⟨z, rfl⟩

theorem coerce_no_xlast {R : List (String × String)} {h1 : Headers}
    (hc : coerceHeaders R = .ok h1) :
    R.lookup X_LAST = none ∧ R.lookup Y_LAST = none := by
  constructor
  · cases hx : R.lookup X_LAST with
    | none => rfl
    | some r =>
      rcases coerceHeaders_lookup hc X_LAST with ⟨h1n, _⟩ | ⟨r2, v2, hR, _, hcvr⟩
      · rw [hx] at h1n; cases h1n
      · rw [hx] at hR
        cases hR
        rw [coerceVal_xlast] at hcvr
        cases hcvr
  · cases hx : R.lookup Y_LAST with
    | none => rfl
    | some r =>
      rcases coerceHeaders_lookup hc Y_LAST with ⟨h1n, _⟩ | ⟨r2, v2, hR, _, hcvr⟩
      · rw [hx] at h1n; cases h1n
      · rw [hx] at hR
        cases hR
        rw [coerceVal_ylast] at hcvr
        cases hcvr

/-- C3 counterexample: a source header that already carries an `X_LAST` line is
rejected by `parse_header` with the unrecognised-header-element
`RoipacException`; it never yields a mapping in which the value is "left
unchanged". -/
theorem c3_xlast_counterexample :
    rawHeaders textC3 "x.dem.rsc" = .ok rawC3 ∧
    rawC3.lookup X_LAST = some "150.2" ∧
    parse_header textC3 "x.dem.rsc" = .error (.roipac (unrecognisedMsg X_LAST "150.2")) :=
  ⟨by decide, by decide, by decide⟩

/-- C3 (amended): in every successfully parsed header, `x_last` and `y_last`
are always synthesized as `first + step * size` (the mapping the parser returns
never gets them from the source text, because a source header containing
`X_LAST` or `Y_LAST` is rejected as an unrecognised header element and never
parses successfully). -/
theorem c3_xlast_synthesis_amended (text path : String) :
    (∀ H, parse_header text path = .ok H →
      ∃ a s n b t m,
        H.lookup X_FIRST = some (.float a) ∧ H.lookup X_STEP = some (.float s) ∧
        H.lookup WIDTH = some (.int n) ∧
        (∃ qx, H.lookup X_LAST = some (.float qx) ∧
          qx.toRat = a.toRat + s.toRat * (n : ℚ)) ∧
        H.lookup Y_FIRST = some (.float b) ∧ H.lookup Y_STEP = some (.float t) ∧
        H.lookup FILE_LENGTH = some (.int m) ∧
        (∃ qy, H.lookup Y_LAST = some (.float qy) ∧
          qy.toRat = b.toRat + t.toRat * (m : ℚ))) ∧
    (∀ R v, rawHeaders text path = .ok R →
      (R.lookup X_LAST = some v ∨ R.lookup Y_LAST = some v) →
      ∀ H, parse_header text path ≠ .ok H) := by
  constructor
  · intro H hp
    obtain ⟨R, h1, h2, hr, hc, hd, hs⟩ := parse_header_ok_decomp hp
    obtain ⟨hxr, hyr⟩ := coerce_no_xlast hc
    have hx1 : h1.lookup X_LAST = none := (coerceHeaders_lookup_none hc X_LAST).mpr hxr
    have hy1 : h1.lookup Y_LAST = none := (coerceHeaders_lookup_none hc Y_LAST).mpr hyr
    have hx2 : h2.lookup X_LAST = none := by
      rw [deriveDates_lookup hd X_LAST (by decide) (by decide) (by decide) (by decide)
        (by decide)]
      exact hx1
    have hy2 : h2.lookup Y_LAST = none := by
      rw [deriveDates_lookup hd Y_LAST (by decide) (by decide) (by decide) (by decide)
        (by decide)]
      exact hy1
    obtain ⟨av, sv, nv, qx, bv, tv, mv, qy, hA, hS, hN, hQx, hB, hT, hM, hQy, rfl⟩ :=
      synthLast_ok_of_absent hs hx2 hy2
    have keep : ∀ (k : String), k ≠ X_LAST → k ≠ Y_LAST →
        (dictInsert (dictInsert h2 X_LAST (.float qx)) Y_LAST (.float qy)).lookup k =
          h2.lookup k := by
      intro k hk1 hk2
      rw [lookup_dictInsert_ne _ _ _ _ hk2, lookup_dictInsert_ne _ _ _ _ hk1]
    have hA1 : h1.lookup X_FIRST = some av := by
      rw [← deriveDates_lookup hd X_FIRST (by decide) (by decide) (by decide) (by decide)
        (by decide)]
      exact hA
    have hS1 : h1.lookup X_STEP = some sv := by
      rw [← deriveDates_lookup hd X_STEP (by decide) (by decide) (by decide) (by decide)
        (by decide)]
      exact hS
    have hN1 : h1.lookup WIDTH = some nv := by
      rw [← deriveDates_lookup hd WIDTH (by decide) (by decide) (by decide) (by decide)
        (by decide)]
      exact hN
    have hB1 : h1.lookup Y_FIRST = some bv := by
      rw [← deriveDates_lookup hd Y_FIRST (by decide) (by decide) (by decide) (by decide)
        (by decide)]
      exact hB
    have hT1 : h1.lookup Y_STEP = some tv := by
      rw [← deriveDates_lookup hd Y_STEP (by decide) (by decide) (by decide) (by decide)
        (by decide)]
      exact hT
    have hM1 : h1.lookup FILE_LENGTH = some mv := by
      rw [← deriveDates_lookup hd FILE_LENGTH (by decide) (by decide) (by decide) (by decide)
        (by decide)]
      exact hM
    obtain ⟨a, rfl⟩ := lookup_float_shape hc coerceVal_xfirst hA1
    obtain ⟨s, rfl⟩ := lookup_float_shape hc coerceVal_xstep hS1
    obtain ⟨n, rfl⟩ := lookup_int_shape hc coerceVal_width hN1
    obtain ⟨b, rfl⟩ := lookup_float_shape hc coerceVal_yfirst hB1
    obtain ⟨t, rfl⟩ := lookup_float_shape hc coerceVal_ystep hT1
    obtain ⟨m, rfl⟩ := lookup_int_shape hc coerceVal_filelen hM1
    have hqx : qx = a.add (s.mul (PyNum.ofInt n)) := by
      unfold pyAddMul toNum at hQx
      cases hQx
      rfl
    have hqy : qy = b.add (t.mul (PyNum.ofInt m)) := by
      unfold pyAddMul toNum at hQy
      cases hQy
      rfl
    refine ⟨a, s, n, b, t, m, ?_, ?_, ?_, ⟨qx, ?_, ?_⟩, ?_, ?_, ?_, ⟨qy, ?_, ?_⟩⟩
    · rw [keep X_FIRST (by decide) (by decide)]; exact hA
    · rw [keep X_STEP (by decide) (by decide)]; exact hS
    · rw [keep WIDTH (by decide) (by decide)]; exact hN
    · rw [lookup_dictInsert_ne _ _ _ _ (by decide : X_LAST ≠ Y_LAST), lookup_dictInsert_self]
    · rw [hqx, PyNum.toRat_add, PyNum.toRat_mul, PyNum.toRat_ofInt]
    · rw [keep Y_FIRST (by decide) (by decide)]; exact hB
    · rw [keep Y_STEP (by decide) (by decide)]; exact hT
    · rw [keep FILE_LENGTH (by decide) (by decide)]; exact hM
    · rw [lookup_dictInsert_self]
    · rw [hqy, PyNum.toRat_add, PyNum.toRat_mul, PyNum.toRat_ofInt]
  · intro R v hr hor H hp
    obtain ⟨R2, h1, h2, hr2, hc2, hd2, hs2⟩ := parse_header_ok_decomp hp
    rw [hr] at hr2
    cases hr2
    obtain ⟨hxr, hyr⟩ := coerce_no_xlast hc2
    rcases hor with hx | hy
    · rw [hx] at hxr; cases hxr
    · rw [hy] at hyr; cases hyr

theorem c3_xlast_synthesis_amended_witness :
    (∃ a s n b t m,
      headerDates1.lookup X_FIRST = some (.float a) ∧
      headerDates1.lookup X_STEP = some (.float s) ∧
      headerDates1.lookup WIDTH = some (.int n) ∧
      (∃ qx, headerDates1.lookup X_LAST = some (.float qx) ∧
        qx.toRat = a.toRat + s.toRat * (n : ℚ)) ∧
      headerDates1.lookup Y_FIRST = some (.float b) ∧
      headerDates1.lookup Y_STEP = some (.float t) ∧
      headerDates1.lookup FILE_LENGTH = some (.int m) ∧
      (∃ qy, headerDates1.lookup Y_LAST = some (.float qy) ∧
        qy.toRat = b.toRat + t.toRat * (m : ℚ))) ∧
    (∀ H, parse_header textC3 "x.dem.rsc" ≠ .ok H) :=
  ⟨(c3_xlast_synthesis_amended textNoDates "a/100102-100304.unw.rsc").1 headerDates1 (by decide),
   (c3_xlast_synthesis_amended textC3 "x.dem.rsc").2 rawC3 "150.2" (by decide)
     (Or.inl (by decide))⟩

/-- C6 counterexample: a header text with two `WIDTH` lines parses successfully
(the last occurrence wins); duplicate-keyed input is not rejected. -/
theorem c6_duplicate_counterexample :
    ((linePairsOf textC6).filter (fun q => q.1 == WIDTH)).length = 2 ∧
    parse_header textC6 "x.dem.rsc" = .ok headerC6 ∧
    headerC6.lookup WIDTH = some (.int 3) :=
  ⟨by decide, by decide, by decide⟩

/-- C6 (amended): a line that is not a whitespace-delimited two-token key/value
pair makes `parse_header` fail with the malformed-content `RoipacException`,
but duplicate keys are not rejected: the raw mapping binds each key to the
value of its last occurrence. -/
theorem c6_malformed_amended (text path : String) :
    ((∃ l, l ∈ nonEmptyLines text ∧ (wsTokens l).length ≠ 2) →
      parse_header text path = .error (.roipac (malformedMsg path))) ∧
    (∀ R, rawHeaders text path = .ok R → ∀ k, R.lookup k = lastValue k (linePairsOf text)) := by
  constructor
  · rintro ⟨l, hm, hbad⟩
    have hlp := linesToPairs_malformed (p := path) hm hbad
    unfold parse_header rawHeaders
    rw [hlp, map_error, error_bind]
  · intro R hR k
    exact rawHeaders_ok_lookup hR k

theorem c6_malformed_amended_witness :
    parse_header textC6bad "p.rsc" = .error (.roipac (malformedMsg "p.rsc")) :=
  (c6_malformed_amended textC6bad "p.rsc").1 ⟨"WIDTH 2 3".data, by decide, by decide⟩

/-- C7 counterexample: for this translated header `X_STEP = Y_STEP = -0.1`, so
`|x_step| = |y_step|`, yet the emitted canonical header carries no uniform
`cellsize` entry: separate `xdim`/`ydim` entries are written, because the code
compares the raw `x_step` (not its absolute value) against `|y_step|`. -/
theorem c7_cellsize_counterexample :
    translate_header true textC7 "obs/geo_100102-100304.unw.rsc" (some "out.hdr") =
      .ok ("out.hdr", contentC7) ∧
    contentC7.lookup "cellsize" = none ∧
    contentC7.lookup "xdim" = some (.float (pnum (-1) 10)) ∧
    contentC7.lookup "ydim" = some (.float (pnum 1 10)) :=
  ⟨by decide, by decide, by decide, by decide⟩

/-- C7 (amended): the emitted canonical header contains a single uniform
`cellsize` entry if and only if `x_step` equals `|y_step|` (the x step taken
with its sign, not its absolute value); otherwise it contains separate `xdim`
and `ydim` entries with `ydim = |y_step|`. -/
theorem c7_cellsize_amended (d : String) (H : Headers) (x y : PyNum)
    (dest : String) (content : List (String × HVal))
    (hx : H.lookup X_STEP = some (.float x)) (hy : H.lookup Y_STEP = some (.float y))
    (hw : write_bil_header d H = .ok (dest, content)) :
    (x.toRat = |y.toRat| →
      content.lookup "cellsize" = some (.float x) ∧
      content.lookup "xdim" = none ∧ content.lookup "ydim" = none) ∧
    (x.toRat ≠ |y.toRat| →
      content.lookup "cellsize" = none ∧
      content.lookup "xdim" = some (.float x) ∧
      content.lookup "ydim" = some (.float y.abs)) := by
  unfold write_bil_header at hw
  cases hW : hget H WIDTH with
  | error e => rw [hW, error_bind] at hw; cases hw
  | ok w =>
  rw [hW, ok_bind] at hw
  cases hL : hget H FILE_LENGTH with
  | error e => rw [hL, error_bind] at hw; cases hw
  | ok nr =>
  rw [hL, ok_bind] at hw
  rw [hget_eq_lookup_some hx, ok_bind, hget_eq_lookup_some hy, ok_bind] at hw
  have habs : pyAbsV (.float y) = .ok (.float y.abs) := rfl
  rw [habs, ok_bind] at hw
  have heqv : x.eqv y.abs = true ↔ x.toRat = |y.toRat| := by
    rw [PyNum.eqv_iff, PyNum.toRat_abs]
  by_cases hcell : x.eqv y.abs = true
  · have hxr := heqv.mp hcell
    have hcv : cellEntries (.float x) (.float y.abs) = .ok [("cellsize", .float x)] := by
      unfold cellEntries
      dsimp only [toNum]
      rw [if_pos hcell]
    rw [hcv, ok_bind] at hw
    cases hXF : hget H X_FIRST with
    | error e => rw [hXF, error_bind] at hw; cases hw
    | ok xf =>
    rw [hXF, ok_bind] at hw
    cases hYC : hget H Y_CORNER with
    | error e => rw [hYC, error_bind] at hw; cases hw
    | ok yc =>
    rw [hYC, ok_bind] at hw
    cases hBO : hget H BYTE_ORDER with
    | error e => rw [hBO, error_bind] at hw; cases hw
    | ok bo =>
    rw [hBO, ok_bind] at hw
    cases hDM : hget H IS_DEM with
    | error e => rw [hDM, error_bind] at hw; cases hw
    | ok demv =>
    rw [hDM, ok_bind] at hw
    by_cases hdem : pyTruthy demv = true
    · rw [if_pos hdem, ok_bind] at hw
      cases hNB : hget H NBITS with
      | error e => rw [hNB, error_bind] at hw; cases hw
      | ok nb =>
      rw [hNB, ok_bind] at hw
      cases hPT : hget H PIXEL_TYPE with
      | error e => rw [hPT, error_bind] at hw; cases hw
      | ok pt =>
      rw [hPT, ok_bind] at hw
      cases hw
      refine ⟨fun _ => ⟨?_, ?_, ?_⟩, fun hne => absurd hxr hne⟩ <;> simp [lookup_cons]
    · rw [if_neg hdem] at hw
      cases hND : hget H NODATA with
      | error e => rw [hND, error_bind] at hw; cases hw
      | ok nod =>
      rw [hND, ok_bind] at hw
      cases hNB2 : hget H NBANDS with
      | error e => rw [hNB2, error_bind] at hw; cases hw
      | ok nb2 =>
      rw [hNB2, ok_bind, ok_bind] at hw
      cases hNB : hget H NBITS with
      | error e => rw [hNB, error_bind] at hw; cases hw
      | ok nb =>
      rw [hNB, ok_bind] at hw
      cases hPT : hget H PIXEL_TYPE with
      | error e => rw [hPT, error_bind] at hw; cases hw
      | ok pt =>
      rw [hPT, ok_bind] at hw
      cases hw
      refine ⟨fun _ => ⟨?_, ?_, ?_⟩, fun hne => absurd hxr hne⟩ <;> simp [lookup_cons]
  · have hxr := (not_iff_not.mpr heqv).mp hcell
    have hcv : cellEntries (.float x) (.float y.abs) =
        .ok [("xdim", .float x), ("ydim", .float y.abs)] := by
      unfold cellEntries
      dsimp only [toNum]
      rw [if_neg hcell]
    rw [hcv, ok_bind] at hw
    cases hXF : hget H X_FIRST with
    | error e => rw [hXF, error_bind] at hw; cases hw
    | ok xf =>
    rw [hXF, ok_bind] at hw
    cases hYC : hget H Y_CORNER with
    | error e => rw [hYC, error_bind] at hw; cases hw
    | ok yc =>
    rw [hYC, ok_bind] at hw
    cases hBO : hget H BYTE_ORDER with
    | error e => rw [hBO, error_bind] at hw; cases hw
    | ok bo =>
    rw [hBO, ok_bind] at hw
    cases hDM : hget H IS_DEM with
    | error e => rw [hDM, error_bind] at hw; cases hw
    | ok demv =>
    rw [hDM, ok_bind] at hw
    by_cases hdem : pyTruthy demv = true
    · rw [if_pos hdem, ok_bind] at hw
      cases hNB : hget H NBITS with
      | error e => rw [hNB, error_bind] at hw; cases hw
      | ok nb =>
      rw [hNB, ok_bind] at hw
      cases hPT : hget H PIXEL_TYPE with
      | error e => rw [hPT, error_bind] at hw; cases hw
      | ok pt =>
      rw [hPT, ok_bind] at hw
      cases hw
      refine ⟨fun heq => absurd heq hxr, fun _ => ⟨?_, ?_, ?_⟩⟩ <;> simp [lookup_cons]
    · rw [if_neg hdem] at hw
      cases hND : hget H NODATA with
      | error e => rw [hND, error_bind] at hw; cases hw
      | ok nod =>
      rw [hND, ok_bind] at hw
      cases hNB2 : hget H NBANDS with
      | error e => rw [hNB2, error_bind] at hw; cases hw
      | ok nb2 =>
      rw [hNB2, ok_bind, ok_bind] at hw
      cases hNB : hget H NBITS with
      | error e => rw [hNB, error_bind] at hw; cases hw
      | ok nb =>
      rw [hNB, ok_bind] at hw
      cases hPT : hget H PIXEL_TYPE with
      | error e => rw [hPT, error_bind] at hw; cases hw
      | ok pt =>
      rw [hPT, ok_bind] at hw
      cases hw
      refine ⟨fun heq => absurd heq hxr, fun _ => ⟨?_, ?_, ?_⟩⟩ <;> simp [lookup_cons]

theorem c7_cellsize_amended_witness :
    contentC7w.lookup "cellsize" = some (.float (pnum 1 10)) ∧
    contentC7w.lookup "xdim" = none ∧ contentC7w.lookup "ydim" = none :=
  (c7_cellsize_amended "o.hdr" headerC7w (pnum 1 10) (pnum (-1) 10) "o.hdr" contentC7w
    (by decide) (by decide) (by decide)).1
    (by
      norm_num [PyNum.toRat, pnum]
      rw [abs_of_pos] ; norm_num)

/-- C8: when the destination geotiff already exists, `_geotiff_multiprocessing`
is a no-op reported as `none`: the file system is unchanged (existing output
bytes intact, nothing parsed or written); and after any successful invocation a
repeat invocation is such a no-op, so the write happens at most once. -/
theorem c8_skip_existing (unw : String) (params : ConvParams) (fs fs1 : FS) (r : Option String)
    (h1 : geotiff_multiprocessing unw params fs = .ok (fs1, r)) :
    (∀ c, fs (conv_dest unw params) = some c → fs1 = fs ∧ r = none) ∧
    geotiff_multiprocessing unw params fs1 = .ok (fs1, none) := by
  unfold geotiff_multiprocessing at h1 ⊢
  by_cases hex : (fs (conv_dest unw params)).isNone = true
  · rw [if_pos hex] at h1
    cases hh : processor_header params.processor unw fs with
    | error e => rw [hh, error_bind] at h1; cases h1
    | ok header =>
      rw [hh, ok_bind] at h1
      cases h1
      constructor
      · intro c hc
        rw [hc] at hex
        cases hex
      · have hset : write_fullres_geotiff fs header unw (conv_dest unw params)
            params.no_data_value (conv_dest unw params) =
            some (renderGeotiff header (fs unw) params.no_data_value) := by
          unfold write_fullres_geotiff
          rw [if_pos rfl]
        rw [if_neg (by rw [hset]; simp)]
  · rw [if_neg hex] at h1
    cases h1
    constructor
    · intro c hc
      exact ⟨rfl, rfl⟩
    · rw [if_neg hex]

theorem c8_skip_existing_witness :
    (∀ c, fsC8 (conv_dest "obs/geo.unw" paramsC8) = some c →
      fsC8 = fsC8 ∧ (none : Option String) = none) ∧
    geotiff_multiprocessing "obs/geo.unw" paramsC8 fsC8 = .ok (fsC8, none) :=
  c8_skip_existing "obs/geo.unw" paramsC8 fsC8 fsC8 none rfl

/-- C9 counterexample: the same header bytes parsed under two different file
names yield two different (both successful) metadata records, because the
master/slave dates are derived from the file name. -/
theorem c9_determinism_counterexample :
    parse_header textNoDates "a/100102-100304.unw.rsc" = .ok headerDates1 ∧
    parse_header textNoDates "a/950607-960708.unw.rsc" = .ok headerDates2 ∧
    headerDates1 ≠ headerDates2 :=
  ⟨by decide, by decide, by decide⟩

/-- C9 (amended): parsing is deterministic in the pair (header bytes, file
path); the result is independent of the path whenever the header is an
elevation-model header or already carries both `DATE` and `DATE12`, but
identical bytes under different paths may otherwise yield different records. -/
theorem c9_determinism_amended (t p1 p2 : String) (R : List (String × String)) (H1 : Headers)
    (hr : rawHeaders t p1 = .ok R) (hc : coerceHeaders R = .ok H1)
    (hk : (H1.lookup DATUM).isSome = true ∨
      ((H1.lookup DATE).isSome = true ∧ (H1.lookup DATE12).isSome = true)) :
    parse_header t p1 = parse_header t p2 := by
  have hr2 : rawHeaders t p2 = .ok R := rawHeaders_ok_path hr
  unfold parse_header
  rw [hr, hr2, ok_bind, ok_bind, hc, ok_bind, ok_bind]
  suffices hdd : deriveDates H1 p1 = deriveDates H1 p2 by rw [hdd]
  rcases hk with hdem | ⟨hd1, hd2⟩
  · rw [deriveDates_dem hdem, deriveDates_dem hdem]
  · by_cases hdm : (H1.lookup DATUM).isSome = true
    · rw [deriveDates_dem hdm, deriveDates_dem hdm]
    · have hdm2 : H1.lookup DATUM = none := by
        cases hx : H1.lookup DATUM with
        | none => rfl
        | some v => rw [hx] at hdm; exact absurd rfl hdm
      rw [deriveDates_not_dem hdm2, deriveDates_not_dem hdm2]
      have hcond : ((H1.lookup DATE).isNone || (H1.lookup DATE12).isNone) = false := by
        rcases Option.isSome_iff_exists.mp hd1 with ⟨v1, hv1⟩
        rcases Option.isSome_iff_exists.mp hd2 with ⟨v2, hv2⟩
        rw [hv1, hv2]
        rfl
      have hfill : ∀ p : String, fillDatesFromPath H1 p = .ok H1 := by
        intro p
        unfold fillDatesFromPath
        rw [hcond]
        rw [if_neg (by simp)]
      rw [hfill p1, hfill p2]

theorem c9_determinism_amended_witness :
    parse_header textC1 "a.dem.rsc" = parse_header textC1 "b.dem.rsc" :=
  c9_determinism_amended textC1 "a.dem.rsc" "b.dem.rsc" rawC1 coercedC1
    (by decide) (by decide) (Or.inl (by decide))

theorem digitChar_facts : ∀ a : Nat, a < 10 →
    (digitChar a).isDigit = true ∧ digitChar a ≠ '-' ∧ digitChar a ≠ '+' ∧
    (digitChar a).toNat = 48 + a ∧ ((digitChar a == '-') = false) ∧
    (('-' == digitChar a) = false) := by decide

theorem digitsToNatAux_cons (acc : Nat) (c : Char) (cs : List Char) :
    digitsToNatAux acc (c :: cs) =
      if c.isDigit then digitsToNatAux (acc * 10 + digitVal c) cs
      else .error .valueError := rfl

theorem pyInt_dd2 (n : Nat) (hn : n ≤ 99) : pyInt (dd2 n) = .ok (n : Int) := by
  have h1 : n / 10 < 10 := by omega
  have h2 : n % 10 < 10 := by omega
  obtain ⟨hd1, hm1, hp1, ht1, _, _⟩ := digitChar_facts (n / 10) h1
  obtain ⟨hd2, hm2, hp2, ht2, _, _⟩ := digitChar_facts (n % 10) h2
  show pyInt (String.mk [digitChar (n / 10), digitChar (n % 10)]) = .ok (n : Int)
  unfold pyInt
  dsimp only
  rw [if_neg hm1, if_neg hp1]
  rw [show digitsToNat [digitChar (n / 10), digitChar (n % 10)] =
      digitsToNatAux 0 [digitChar (n / 10), digitChar (n % 10)] from rfl]
  rw [digitsToNatAux_cons, if_pos hd1, digitsToNatAux_cons, if_pos hd2]
  have hv : (0 * 10 + digitVal (digitChar (n / 10))) * 10 + digitVal (digitChar (n % 10)) = n := by
    unfold digitVal
    rw [ht1, ht2]
    omega
  rw [hv]
  rfl

/-- C4: `parse_date` on a six-character `yymmdd` string maps two-digit years
50..99 to year `1900 + yy` and 00..49 to year `2000 + yy`: in particular
`99mmdd` parses to year 1999 and `00mmdd` to year 2000. -/
theorem c4_year_pivot (yy mm dd : Nat) (hy : yy ≤ 99) (hm : mm ≤ 99) (hd : dd ≤ 99)
    (hval : isValidYMD (yearPivot yy) mm dd = true) :
    parse_date (dd2 yy ++ dd2 mm ++ dd2 dd) = .ok (.date ⟨yearPivot (yy : Int), mm, dd⟩) ∧
    (50 ≤ yy → yearPivot (yy : Int) = 1900 + yy) ∧
    (yy ≤ 49 → yearPivot (yy : Int) = 2000 + yy) := by
  have hdata : (dd2 yy ++ dd2 mm ++ dd2 dd).data =
      [digitChar (yy / 10), digitChar (yy % 10), digitChar (mm / 10), digitChar (mm % 10),
       digitChar (dd / 10), digitChar (dd % 10)] := rfl
  refine ⟨?_, ?_, ?_⟩
  · have hnod : ((dd2 yy ++ dd2 mm ++ dd2 dd).data.contains '-') = false := by
      rw [hdata]
      have f1 := Ne.symm (digitChar_facts (yy / 10) (by omega)).2.1
      have f2 := Ne.symm (digitChar_facts (yy % 10) (by omega)).2.1
      have f3 := Ne.symm (digitChar_facts (mm / 10) (by omega)).2.1
      have f4 := Ne.symm (digitChar_facts (mm % 10) (by omega)).2.1
      have f5 := Ne.symm (digitChar_facts (dd / 10) (by omega)).2.1
      have f6 := Ne.symm (digitChar_facts (dd % 10) (by omega)).2.1
      simp [List.contains, f1, f2, f3, f4, f5, f6]
    have htd : to_date (dd2 yy ++ dd2 mm ++ dd2 dd) = .ok ⟨yearPivot (yy : Int), mm, dd⟩ := by
      have hs0 : sliceList (dd2 yy ++ dd2 mm ++ dd2 dd).data 0 2 =
          [digitChar (yy / 10), digitChar (yy % 10)] := by rw [hdata]; rfl
      have hs2 : sliceList (dd2 yy ++ dd2 mm ++ dd2 dd).data 2 4 =
          [digitChar (mm / 10), digitChar (mm % 10)] := by rw [hdata]; rfl
      have hs4 : sliceList (dd2 yy ++ dd2 mm ++ dd2 dd).data 4 6 =
          [digitChar (dd / 10), digitChar (dd % 10)] := by rw [hdata]; rfl
      have hpy : pyInt (String.mk [digitChar (yy / 10), digitChar (yy % 10)]) = .ok (yy : Int) :=
        pyInt_dd2 yy hy
      have hpm : pyInt (String.mk [digitChar (mm / 10), digitChar (mm % 10)]) = .ok (mm : Int) :=
        pyInt_dd2 mm hm
      have hpd : pyInt (String.mk [digitChar (dd / 10), digitChar (dd % 10)]) = .ok (dd : Int) :=
        pyInt_dd2 dd hd
      unfold to_date
      rw [hs0, hs2, hs4, hpy, ok_bind, hpm, ok_bind, hpd, ok_bind]
      unfold mkPyDate
      rw [if_pos hval]
      simp
    unfold parse_date
    rw [hnod]
    rw [if_neg (by simp)]
    rw [htd, map_ok]
  · intro h50
    unfold yearPivot
    rw [if_pos ⟨by exact_mod_cast hy, by exact_mod_cast h50⟩]
    omega
  · intro h49
    unfold yearPivot
    rw [if_neg (by omega)]
    omega

theorem c4_year_pivot_witness :
    parse_date (dd2 99 ++ dd2 1 ++ dd2 2) = .ok (.date ⟨1999, 1, 2⟩) ∧
    parse_date (dd2 0 ++ dd2 1 ++ dd2 2) = .ok (.date ⟨2000, 1, 2⟩) := by
  constructor
  · have h := (c4_year_pivot 99 1 2 (by norm_num) (by norm_num) (by norm_num) (by decide)).1
    rw [show yearPivot ((99 : Nat) : Int) = 1999 from by decide] at h
    exact h
  · have h := (c4_year_pivot 0 1 2 (by norm_num) (by norm_num) (by norm_num) (by decide)).1
    rw [show yearPivot ((0 : Nat) : Int) = 2000 from by decide] at h
    exact h
